import Mathlib

/-!
Verification of the SIRE converter engine (`sire_converter.py`).

This file is a shallow embedding of the conversion core: the reference code
tables and their resolvers (`CountryCodes`, `ColombianCities`,
`DocumentTypes`), the date parser (`DateParser`), the text normalizer
(`TextNormalizer`), the inference engine (`InferenceEngine`), the document
validator (`DocumentValidator`), the column detector (`ColumnDetector`) and
the orchestrator (`SireConverter.convert` / `SireConverter._process_guest`).

Modelling conventions:
* Python strings are Lean `String`s; the Python whitespace predicate (used by
  `str.strip`, `str.split` and the regex class `\s`) is modelled over the
  Unicode whitespace code points Python recognises.
* Cell values of the tabular dataset are `Value`: a string, a native
  timestamp (anything carrying `strftime`, modelled by its date), `None`
  (`Value.vnone`, also a missing key), or float NaN (`Value.nan`, which
  unlike `None` is truthy and stringifies to `"nan"`).
* Python float scores are modelled as rationals (`ℚ`).  Every comparison a
  theorem below depends on involves only the exact values 0, 1/3, 1/2, 1 and
  13/10 against the thresholds 2/5, 4/5 and 1/2, where IEEE doubles and
  rationals agree.
* Python dicts are assoc lists in insertion order (the source dicts have no
  duplicate keys); `for k, v in d.items()` iterates in that order.
* `datetime.now().year` is passed explicitly as a `today` argument.
-/

/-! ## Python string primitives -/

/-- Whitespace as recognised by Python's `str.strip`, `str.split` and the
regex class `\s` (ASCII controls, space, and the Unicode space points). -/
def pyIsSpace (c : Char) : Bool :=
  let n := c.toNat
  (9 ≤ n && n ≤ 13) || n = 32 || (28 ≤ n && n ≤ 31) || n = 0x85 || n = 0xA0 ||
  n = 0x1680 || (0x2000 ≤ n && n ≤ 0x200A) || n = 0x2028 || n = 0x2029 ||
  n = 0x202F || n = 0x205F || n = 0x3000

/-- Does `needle` occur at the start of `hay`? -/
def chStarts : List Char → List Char → Bool
  | [], _ => true
  | _ :: _, [] => false
  | a :: as, b :: bs => a = b && chStarts as bs

/-- Does `needle` occur anywhere inside `hay`?  (Python `needle in hay`.) -/
def chContainsAux (needle : List Char) : List Char → Bool
  | [] => chStarts needle []
  | c :: t => chStarts needle (c :: t) || chContainsAux needle t

/-- Python's substring test `a in b`. -/
def pyIn (a b : String) : Bool := chContainsAux a.data b.data

/-- Python `str.strip()` (both ends, Python whitespace). -/
def chStrip (l : List Char) : List Char :=
  ((l.dropWhile pyIsSpace).reverse.dropWhile pyIsSpace).reverse

/-- Python `str.strip()` on strings. -/
def pyStrip (s : String) : String := ⟨chStrip s.data⟩

/-- Python `str.lower()` for the ASCII and Latin-1 letters appearing in the
converter's tables and inputs. -/
def chLower (c : Char) : Char :=
  if ('A' ≤ c && c ≤ 'Z') = true then Char.ofNat (c.toNat + 32)
  else if (0xC0 ≤ c.toNat && c.toNat ≤ 0xDE && !(c.toNat = 0xD7)) = true then
    Char.ofNat (c.toNat + 32)
  else c

/-- Python `str.lower()` on strings. -/
def pyLower (s : String) : String := ⟨s.data.map chLower⟩

/-- Python `str.upper()` for one character; `ß` uppercases to the two-letter
string `SS`, which is why the result is a list. -/
def chUpper (c : Char) : List Char :=
  if ('a' ≤ c && c ≤ 'z') = true then [Char.ofNat (c.toNat - 32)]
  else if c.toNat = 0xDF then ['S', 'S']
  else if (0xE0 ≤ c.toNat && c.toNat ≤ 0xFE && !(c.toNat = 0xF7)) = true then
    [Char.ofNat (c.toNat - 32)]
  else if c.toNat = 0xFF then [Char.ofNat 0x178]
  else [c]

/-- Python `str.upper()` on strings. -/
def pyUpper (s : String) : String := ⟨(s.data.map chUpper).flatten⟩

/-- Python `str.split()` with no argument: split on whitespace runs,
dropping empty pieces. -/
def pySplit (s : String) : List String :=
  ((s.data.splitOnP pyIsSpace).filter (· ≠ [])).map (fun l => (⟨l⟩ : String))

/-- Python `sep.join(parts)`. -/
def pyJoin (sep : String) : List String → String
  | [] => ""
  | [x] => x
  | x :: xs => x ++ sep ++ pyJoin sep xs

/-- Splitting a string on one delimiter character, Python `s.split(c)`:
every occurrence separates, empty pieces are kept. -/
def splitChar (c : Char) (s : String) : List String :=
  (s.data.splitOn c).map (fun l => (⟨l⟩ : String))

/-! ## Data model -/

/-- Confidence levels (`Confidence` enum of the source). -/
inductive Confidence where
  | high
  | medium
  | low
  | none
deriving DecidableEq, Repr

/-- One cell of the tabular dataset: a string, a native timestamp (a value
with `strftime`, represented by its date), `None`, or float NaN. -/
inductive Value where
  | str (s : String)
  | ts (day month year : Nat)
  | vnone
  | nan
deriving DecidableEq, Repr

/-- Zero-pad a numeral to two digits (`%d`/`%m` of `strftime`). -/
def pad2 (n : Nat) : String := if n < 10 then "0" ++ toString n else toString n

/-- Render a date as `dd/mm/yyyy` (`strftime('%d/%m/%Y')` for the in-range
years the parser accepts, which all have four digits). -/
def fmtDate (d m y : Nat) : String := pad2 d ++ "/" ++ pad2 m ++ "/" ++ toString y

/-- Python `str(value)`.  `Value.vnone` is only ever stringified behind
truthiness guards in the source, so its rendering is never observable;
`str(nan)` is `"nan"`. -/
def Value.pyStr : Value → String
  | .str s => s
  | .ts d m y => toString y ++ "-" ++ pad2 m ++ "-" ++ pad2 d ++ " 00:00:00"
  | .vnone => "None"
  | .nan => "nan"

/-- `is_nan_or_empty` of the source: `None`, NaN, or a whitespace-only
string. -/
def is_nan_or_empty : Value → Bool
  | .vnone => true
  | .nan => true
  | .str s => pyStrip s = ""
  | .ts _ _ _ => false

/-- Python truthiness (`if not value`) for cell values: `None` is falsy,
float NaN is truthy, a string is falsy iff empty. -/
def pyFalsy : Value → Bool
  | .vnone => true
  | .nan => false
  | .str s => s = ""
  | .ts _ _ _ => false

/-- `FieldResult` of the source. -/
structure FieldResult where
  value : String
  confidence : Confidence
  source : String := ""
  notes : String := ""
deriving DecidableEq, Repr

/-- `GuestRecord` of the source. -/
structure GuestRecord where
  row_number : Nat
  documento : Option FieldResult := Option.none
  tipo_documento : Option FieldResult := Option.none
  nombres : Option FieldResult := Option.none
  primer_apellido : Option FieldResult := Option.none
  segundo_apellido : Option FieldResult := Option.none
  nacionalidad : Option FieldResult := Option.none
  fecha_nacimiento : Option FieldResult := Option.none
  fecha_movimiento : Option FieldResult := Option.none
  procedencia : Option FieldResult := Option.none
  destino : Option FieldResult := Option.none
  is_valid : Bool := false
  errors : List String := []
  warnings : List String := []
deriving DecidableEq, Repr

/-- First-match assoc lookup, the model of a Python dict membership /
indexing on the insertion-ordered key list. -/
def assocLookup : List (String × String) → String → Option String
  | [], _ => Option.none
  | (k, v) :: rest, key => if k = key then some v else assocLookup rest key

/-! ## Normalization shared by the country and city resolvers -/

/-- The character class kept by `re.sub(r'[^A-ZÁÉÍÓÚÑÜ\s]', '', ...)`. -/
def refKeep (c : Char) : Bool :=
  ('A' ≤ c && c ≤ 'Z') || c = 'Á' || c = 'É' || c = 'Í' || c = 'Ó' ||
  c = 'Ú' || c = 'Ñ' || c = 'Ü' || pyIsSpace c

/-- The normalization pipeline of `CountryCodes.get_code` and
`ColombianCities.is_colombian_city`: uppercase, strip, keep only
letters/accents/whitespace, collapse whitespace runs, strip. -/
def normalizeRef (s : String) : String :=
  pyJoin " " (pySplit (⟨(pyStrip (pyUpper s)).data.filter refKeep⟩ : String))

/-! ## Reference tables (verbatim from the source, dict insertion order) -/

def CountryCodes.CODES : List (String × String) := [
  ("ESTADOS UNIDOS", "249"), ("UNITED STATES", "249"),
  ("UNITED STATES OF AMERICA", "249"), ("USA", "249"),
  ("US", "249"), ("AMERICA", "249"),
  ("E.E.U.U.", "249"), ("EEUU", "249"),
  ("CANADA", "149"), ("CANADÁ", "149"),
  ("CAN", "149"), ("MEXICO", "493"),
  ("MÉXICO", "493"), ("MEX", "493"),
  ("GROENLANDIA", "315"), ("GREENLAND", "315"),
  ("BERMUDAS", "90"), ("BERMUDA", "90"),
  ("SAN PEDRO Y MIQUELON", "682"), ("SAINT PIERRE AND MIQUELON", "682"),
  ("GUATEMALA", "317"), ("GTM", "317"),
  ("HONDURAS", "345"), ("HND", "345"),
  ("EL SALVADOR", "242"), ("SLV", "242"),
  ("NICARAGUA", "521"), ("NIC", "521"),
  ("COSTA RICA", "196"), ("CRI", "196"),
  ("PANAMA", "580"), ("PANAMÁ", "580"),
  ("PAN", "580"), ("BELICE", "88"),
  ("BELIZE", "88"), ("BLZ", "88"),
  ("CUBA", "199"), ("CUB", "199"),
  ("HAITI", "341"), ("HAITÍ", "341"),
  ("HTI", "341"), ("REPUBLICA DOMINICANA", "647"),
  ("DOMINICAN REPUBLIC", "647"), ("DOM", "647"),
  ("PUERTO RICO", "611"), ("PRI", "611"),
  ("JAMAICA", "391"), ("JAM", "391"),
  ("TRINIDAD Y TOBAGO", "815"), ("TRINIDAD AND TOBAGO", "815"),
  ("TTO", "815"), ("BAHAMAS", "77"),
  ("BAHAMAS ISLANDS", "77"), ("BHS", "77"),
  ("BARBADOS", "83"), ("BRB", "83"),
  ("ANTIGUA Y BARBUDA", "43"), ("ANTIGUA AND BARBUDA", "43"),
  ("ATG", "43"), ("DOMINICA", "235"),
  ("DMA", "235"), ("GRANADA", "297"),
  ("GRENADA", "297"), ("GRD", "297"),
  ("SAN CRISTOBAL Y NIEVES", "695"), ("SAINT KITTS AND NEVIS", "695"),
  ("KNA", "695"), ("SANTA LUCIA", "715"),
  ("SAINT LUCIA", "715"), ("LCA", "715"),
  ("SAN VICENTE Y LAS GRANADINAS", "705"), ("SAINT VINCENT AND THE GRENADINES", "705"),
  ("VCT", "705"), ("ARUBA", "67"),
  ("ABW", "67"), ("ANTILLAS HOLANDESAS", "921"),
  ("NETHERLANDS ANTILLES", "921"), ("ANT", "921"),
  ("ANTILLAS NEERLANDESAS", "44"), ("CURACAO", "201"),
  ("CURAZAO", "201"), ("ANGUILA", "895"),
  ("ANGUILLA", "895"), ("AIA", "895"),
  ("ISLAS VIRGENES BRITANICAS", "866"), ("BRITISH VIRGIN ISLANDS", "866"),
  ("VGB", "866"), ("ISLAS VIRGENES ESTADOUNIDENSES", "867"),
  ("US VIRGIN ISLANDS", "867"), ("VIR", "867"),
  ("ISLAS CAIMAN", "137"), ("CAYMAN ISLANDS", "137"),
  ("CYM", "137"), ("MONTSERRAT", "501"),
  ("MONSERRAT", "501"), ("MSR", "501"),
  ("ISLAS TURCAS Y CAICOS", "900"), ("TURKS AND CAICOS ISLANDS", "900"),
  ("TCA", "900"), ("GUADALUPE", "338"),
  ("GUADELOUPE", "338"), ("GLP", "338"),
  ("MARTINICA", "490"), ("MARTINIQUE", "490"),
  ("MTQ", "490"), ("COLOMBIA", "169"),
  ("COL", "169"), ("VENEZUELA", "850"),
  ("VEN", "850"), ("ECUADOR", "239"),
  ("ECU", "239"), ("PERU", "589"),
  ("PERÚ", "589"), ("PER", "589"),
  ("BOLIVIA", "97"), ("BOL", "97"),
  ("CHILE", "211"), ("CHL", "211"),
  ("ARGENTINA", "63"), ("ARG", "63"),
  ("URUGUAY", "845"), ("URY", "845"),
  ("PARAGUAY", "586"), ("PRY", "586"),
  ("BRASIL", "105"), ("BRAZIL", "105"),
  ("BRA", "105"), ("GUYANA", "325"),
  ("GUY", "325"), ("SURINAM", "770"),
  ("SURINAME", "770"), ("SUR", "770"),
  ("GUAYANA FRANCESA", "340"), ("FRENCH GUIANA", "340"),
  ("GUF", "340"), ("ESPANA", "245"),
  ("ESPAÑA", "245"), ("SPAIN", "245"),
  ("ESP", "245"), ("FRANCIA", "275"),
  ("FRANCE", "275"), ("FRA", "275"),
  ("ALEMANIA", "23"), ("GERMANY", "23"),
  ("DEU", "23"), ("GER", "23"),
  ("ITALIA", "386"), ("ITALY", "386"),
  ("ITA", "386"), ("PORTUGAL", "607"),
  ("PRT", "607"), ("REINO UNIDO", "628"),
  ("UNITED KINGDOM", "628"), ("UK", "628"),
  ("GBR", "628"), ("ENGLAND", "628"),
  ("GREAT BRITAIN", "628"), ("GRAN BRETAÑA", "628"),
  ("INGLATERRA", "628"), ("IRLANDA", "375"),
  ("IRELAND", "375"), ("IRL", "375"),
  ("EIRE", "375"), ("PAISES BAJOS", "573"),
  ("NETHERLANDS", "573"), ("HOLANDA", "573"),
  ("NLD", "573"), ("BELGICA", "87"),
  ("BÉLGICA", "87"), ("BELGIUM", "87"),
  ("BEL", "87"), ("LUXEMBURGO", "442"),
  ("LUXEMBOURG", "442"), ("LUX", "442"),
  ("SUIZA", "767"), ("SWITZERLAND", "767"),
  ("CHE", "767"), ("AUSTRIA", "72"),
  ("AUT", "72"), ("LIECHTENSTEIN", "441"),
  ("LIE", "441"), ("MONACO", "496"),
  ("MCO", "496"), ("ANDORRA", "37"),
  ("AND", "37"), ("SAN MARINO", "701"),
  ("SMR", "701"), ("CIUDAD DEL VATICANO", "717"),
  ("VATICAN", "717"), ("VATICANO", "717"),
  ("SANTA SEDE", "717"), ("VAT", "717"),
  ("GIBRALTAR", "293"), ("GIB", "293"),
  ("SUECIA", "764"), ("SWEDEN", "764"),
  ("SWE", "764"), ("NORUEGA", "538"),
  ("NORWAY", "538"), ("NOR", "538"),
  ("DINAMARCA", "232"), ("DENMARK", "232"),
  ("DNK", "232"), ("FINLANDIA", "271"),
  ("FINLAND", "271"), ("FIN", "271"),
  ("ISLANDIA", "379"), ("ICELAND", "379"),
  ("ISL", "379"), ("ISLAS FEROE", "390"),
  ("FAROE ISLANDS", "390"), ("FRO", "390"),
  ("ALAND", "384"), ("SVALBARD Y JAN MAYEN", "730"),
  ("RUSIA", "673"), ("RUSSIA", "673"),
  ("RUSSIAN FEDERATION", "673"), ("RUS", "673"),
  ("UCRANIA", "830"), ("UKRAINE", "830"),
  ("UKR", "830"), ("BIELORRUSIA", "85"),
  ("BELARUS", "85"), ("BLR", "85"),
  ("POLONIA", "603"), ("POLAND", "603"),
  ("POL", "603"), ("REPUBLICA CHECA", "207"),
  ("CZECH REPUBLIC", "207"), ("CZECHIA", "207"),
  ("CZE", "207"), ("ESLOVAQUIA", "247"),
  ("SLOVAKIA", "247"), ("SVK", "247"),
  ("HUNGRIA", "355"), ("HUNGARY", "355"),
  ("HUN", "355"), ("RUMANIA", "670"),
  ("ROMANIA", "670"), ("ROU", "670"),
  ("BULGARIA", "111"), ("BGR", "111"),
  ("MOLDAVIA", "495"), ("MOLDOVA", "495"),
  ("MDA", "495"), ("GRECIA", "301"),
  ("GREECE", "301"), ("GRC", "301"),
  ("TURQUIA", "827"), ("TURQUÍA", "827"),
  ("TURKEY", "827"), ("TUR", "827"),
  ("CROACIA", "198"), ("CROATIA", "198"),
  ("HRV", "198"), ("SERBIA", "729"),
  ("SRB", "729"), ("BOSNIA", "99"),
  ("BOSNIA HERZEGOVINA", "99"), ("BOSNIA AND HERZEGOVINA", "99"),
  ("BIH", "99"), ("MONTENEGRO", "499"),
  ("MNE", "499"), ("ESLOVENIA", "248"),
  ("SLOVENIA", "248"), ("SVN", "248"),
  ("MACEDONIA", "448"), ("ARY MACEDONIA", "448"),
  ("NORTH MACEDONIA", "448"), ("MKD", "448"),
  ("REPUBLICA DE MACEDONIA", "642"), ("ALBANIA", "17"),
  ("ALB", "17"), ("KOSOVO", "414"),
  ("LITUANIA", "429"), ("LITHUANIA", "429"),
  ("LTU", "429"), ("LETONIA", "428"),
  ("LATVIA", "428"), ("LVA", "428"),
  ("ESTONIA", "251"), ("EST", "251"),
  ("GEORGIA", "287"), ("GEO", "287"),
  ("ARMENIA", "65"), ("ARM", "65"),
  ("AZERBAIYAN", "75"), ("AZERBAIJAN", "75"),
  ("AZE", "75"), ("CHINA", "215"),
  ("CHN", "215"), ("JAPON", "399"),
  ("JAPÓN", "399"), ("JAPAN", "399"),
  ("JPN", "399"), ("COREA DEL SUR", "190"),
  ("SOUTH KOREA", "190"), ("KOREA", "190"),
  ("KOR", "190"), ("COREA DEL NORTE", "651"),
  ("NORTH KOREA", "651"), ("PRK", "651"),
  ("TAIWAN", "774"), ("TWN", "774"),
  ("HONG KONG", "347"), ("HKG", "347"),
  ("MACAO", "447"), ("MACAU", "447"),
  ("MAC", "447"), ("MONGOLIA", "497"),
  ("MNG", "497"), ("TAILANDIA", "776"),
  ("THAILAND", "776"), ("THA", "776"),
  ("VIETNAM", "855"), ("VIET NAM", "855"),
  ("VNM", "855"), ("FILIPINAS", "267"),
  ("PHILIPPINES", "267"), ("PHL", "267"),
  ("INDONESIA", "365"), ("IDN", "365"),
  ("MALASIA", "455"), ("MALAYSIA", "455"),
  ("MYS", "455"), ("SINGAPUR", "741"),
  ("SINGAPORE", "741"), ("SGP", "741"),
  ("MYANMAR", "507"), ("BIRMANIA", "507"),
  ("BURMA", "507"), ("MMR", "507"),
  ("CAMBOYA", "141"), ("CAMBODIA", "141"),
  ("KAMPUCHEA", "141"), ("KHM", "141"),
  ("LAOS", "420"), ("LAO", "420"),
  ("BRUNEI", "108"), ("BRUNEI DARUSSALAM", "108"),
  ("BRN", "108"), ("TIMOR ORIENTAL", "783"),
  ("EAST TIMOR", "783"), ("TIMOR LESTE", "783"),
  ("TLS", "783"), ("INDIA", "361"),
  ("IND", "361"), ("PAKISTAN", "576"),
  ("PAK", "576"), ("BANGLADESH", "81"),
  ("BGD", "81"), ("SRI LANKA", "750"),
  ("LKA", "750"), ("CEILAN", "750"),
  ("NEPAL", "517"), ("NPL", "517"),
  ("BUTAN", "117"), ("BHUTAN", "117"),
  ("BTN", "117"), ("MALDIVAS", "461"),
  ("MALDIVES", "461"), ("MDV", "461"),
  ("AFGANISTAN", "13"), ("AFGHANISTAN", "13"),
  ("AFG", "13"), ("KAZAJISTAN", "406"),
  ("KAZAKHSTAN", "406"), ("KAZ", "406"),
  ("UZBEKISTAN", "847"), ("UZB", "847"),
  ("TURKMENISTAN", "829"), ("TKM", "829"),
  ("KIRGUISTAN", "412"), ("KYRGYZSTAN", "412"),
  ("KGZ", "412"), ("TAYIKISTAN", "775"),
  ("TAJIKISTAN", "775"), ("TJK", "775"),
  ("ISRAEL", "383"), ("ISR", "383"),
  ("PALESTINA", "600"), ("PALESTINE", "600"),
  ("PSE", "600"), ("LIBANO", "431"),
  ("LEBANON", "431"), ("LBN", "431"),
  ("SIRIA", "744"), ("SYRIA", "744"),
  ("SYR", "744"), ("JORDANIA", "403"),
  ("JORDAN", "403"), ("JOR", "403"),
  ("IRAQ", "369"), ("IRQ", "369"),
  ("IRAK", "369"), ("IRAN", "372"),
  ("IRN", "372"), ("ARABIA SAUDITA", "55"),
  ("SAUDI ARABIA", "55"), ("SAU", "55"),
  ("EMIRATOS ARABES UNIDOS", "244"), ("UNITED ARAB EMIRATES", "244"),
  ("UAE", "244"), ("ARE", "244"),
  ("KUWAIT", "413"), ("KWT", "413"),
  ("QATAR", "618"), ("QAT", "618"),
  ("BAHREIN", "80"), ("BAHRAIN", "80"),
  ("BHR", "80"), ("OMAN", "542"),
  ("OMN", "542"), ("YEMEN", "880"),
  ("YEM", "880"), ("CHIPRE", "221"),
  ("CYPRUS", "221"), ("CYP", "221"),
  ("AUSTRALIA", "69"), ("AUS", "69"),
  ("NUEVA ZELANDA", "540"), ("NEW ZEALAND", "540"),
  ("NZL", "540"), ("PAPUA NUEVA GUINEA", "582"),
  ("PAPUA NEW GUINEA", "582"), ("PNG", "582"),
  ("FIYI", "255"), ("FIJI", "255"),
  ("FJI", "255"), ("ISLAS SALOMON", "395"),
  ("SOLOMON ISLANDS", "395"), ("SLB", "395"),
  ("VANUATU", "849"), ("VUT", "849"),
  ("SAMOA", "699"), ("WSM", "699"),
  ("SAMOA AMERICANA", "698"), ("AMERICAN SAMOA", "698"),
  ("ASM", "698"), ("TONGA", "810"),
  ("TON", "810"), ("KIRIBATI", "411"),
  ("KIR", "411"), ("TUVALU", "828"),
  ("TUV", "828"), ("NAURU", "508"),
  ("NRU", "508"), ("PALAOS", "578"),
  ("PALAU", "578"), ("PLW", "578"),
  ("MICRONESIA", "503"), ("FSM", "503"),
  ("ISLAS MARSHALL", "475"), ("MARSHALL ISLANDS", "475"),
  ("MHL", "475"), ("GUAM", "339"),
  ("GUM", "339"), ("ISLAS MARIANAS DEL NORTE", "392"),
  ("NORTHERN MARIANA ISLANDS", "392"), ("MNP", "392"),
  ("NUEVA CALEDONIA", "539"), ("NEW CALEDONIA", "539"),
  ("NCL", "539"), ("POLINESIA FRANCESA", "609"),
  ("FRENCH POLYNESIA", "609"), ("PYF", "609"),
  ("WALLIS Y FUTUNA", "394"), ("WALLIS AND FUTUNA", "394"),
  ("WLF", "394"), ("ISLAS COOK", "388"),
  ("COOK ISLANDS", "388"), ("COK", "388"),
  ("NIUE", "531"), ("NIU", "531"),
  ("TOKELAU", "812"), ("TKL", "812"),
  ("ISLAS PITCAIRN", "381"), ("PITCAIRN", "381"),
  ("PCN", "381"), ("NORFOLK", "163"),
  ("NORFOLK ISLAND", "163"), ("NFK", "163"),
  ("ISLAS COCOS", "178"), ("COCOS KEELING ISLANDS", "178"),
  ("CCK", "178"), ("ISLA DE NAVIDAD", "387"),
  ("CHRISTMAS ISLAND", "387"), ("CXR", "387"),
  ("EGIPTO", "240"), ("EGYPT", "240"),
  ("EGY", "240"), ("LIBIA", "438"),
  ("LIBYA", "438"), ("LBY", "438"),
  ("TUNEZ", "820"), ("TUNISIA", "820"),
  ("TUN", "820"), ("ARGELIA", "59"),
  ("ALGERIA", "59"), ("DZA", "59"),
  ("MARRUECOS", "474"), ("MOROCCO", "474"),
  ("MAR", "474"), ("SAHARA OCCIDENTAL", "680"),
  ("WESTERN SAHARA", "680"), ("ESH", "680"),
  ("SUDAN", "759"), ("SDN", "759"),
  ("NIGERIA", "525"), ("NGA", "525"),
  ("NIGER", "528"), ("NER", "528"),
  ("GHANA", "289"), ("GHA", "289"),
  ("COSTA DE MARFIL", "193"), ("COTE D\x27IVOIRE", "193"),
  ("IVORY COAST", "193"), ("CIV", "193"),
  ("SENEGAL", "728"), ("SEN", "728"),
  ("MALI", "464"), ("MLI", "464"),
  ("BURKINA FASO", "113"), ("BFA", "113"),
  ("GUINEA", "329"), ("GIN", "329"),
  ("GUINEA BISSAU", "334"), ("GUINEA-BISSAU", "334"),
  ("GNB", "334"), ("SIERRA LEONA", "735"),
  ("SIERRA LEONE", "735"), ("SLE", "735"),
  ("LIBERIA", "434"), ("LBR", "434"),
  ("TOGO", "800"), ("TGO", "800"),
  ("BENIN", "89"), ("BEN", "89"),
  ("MAURITANIA", "488"), ("MRT", "488"),
  ("CABO VERDE", "127"), ("CAPE VERDE", "127"),
  ("CPV", "127"), ("GAMBIA", "285"),
  ("GMB", "285"), ("CAMERUN", "145"),
  ("CAMEROON", "145"), ("CMR", "145"),
  ("REPUBLICA CENTROAFRICANA", "998"), ("CENTRAL AFRICAN REPUBLIC", "998"),
  ("CAF", "998"), ("CHAD", "151"),
  ("TCD", "151"), ("REPUBLICA DEL CONGO", "170"),
  ("CONGO", "170"), ("COG", "170"),
  ("REPUBLICA DEMOCRATICA DEL CONGO", "177"), ("ZAIRE", "177"),
  ("COD", "177"), ("GUINEA ECUATORIAL", "331"),
  ("EQUATORIAL GUINEA", "331"), ("GNQ", "331"),
  ("GABON", "281"), ("GAB", "281"),
  ("SANTO TOME Y PRINCIPE", "720"), ("SAO TOME AND PRINCIPE", "720"),
  ("STP", "720"), ("ANGOLA", "40"),
  ("AGO", "40"), ("KENIA", "410"),
  ("KENYA", "410"), ("KEN", "410"),
  ("ETIOPIA", "253"), ("ETHIOPIA", "253"),
  ("ETH", "253"), ("TANZANIA", "780"),
  ("TZA", "780"), ("UGANDA", "833"),
  ("UGA", "833"), ("RWANDA", "675"),
  ("RUANDA", "675"), ("RWA", "675"),
  ("BURUNDI", "115"), ("BDI", "115"),
  ("SOMALIA", "748"), ("SOM", "748"),
  ("YIBUTI", "920"), ("DJIBOUTI", "920"),
  ("DJI", "920"), ("ERITREA", "246"),
  ("ERI", "246"), ("SEYCHELLES", "731"),
  ("SYC", "731"), ("MAURICIO", "485"),
  ("MAURITIUS", "485"), ("MUS", "485"),
  ("COMORAS", "171"), ("COMOROS", "171"),
  ("COM", "171"), ("MADAGASCAR", "450"),
  ("MDG", "450"), ("REUNION", "650"),
  ("REU", "650"), ("MAYOTTE", "494"),
  ("SUDAFRICA", "756"), ("SUDÁFRICA", "756"),
  ("SOUTH AFRICA", "756"), ("ZAF", "756"),
  ("NAMIBIA", "512"), ("NAM", "512"),
  ("BOTSWANA", "101"), ("BWA", "101"),
  ("ZIMBABUE", "892"), ("ZIMBABWE", "892"),
  ("ZWE", "892"), ("ZAMBIA", "890"),
  ("ZMB", "890"), ("MOZAMBIQUE", "505"),
  ("MOZ", "505"), ("MALAWI", "458"),
  ("MWI", "458"), ("LESOTHO", "426"),
  ("LSO", "426"), ("SWAZILANDIA", "773"),
  ("ESWATINI", "773"), ("SWAZILAND", "773"),
  ("SWZ", "773"), ("ISLAS ULTRAMARINAS DE ESTADOS UNIDOS", "200"),
  ("TERRITORIO BRITANICO DEL OCEANO INDICO", "779"), ("BRITISH INDIAN OCEAN TERRITORY", "779"),
  ("IOT", "779"), ("SANTA HELENA", "708"),
  ("SAINT HELENA", "708"), ("SHN", "708"),
  ("ISLA DE MAN", "380"), ("ISLE OF MAN", "380"),
  ("IMN", "380"), ("JERSEY", "160"),
  ("JEY", "160"), ("GUERNSEY", "146"),
  ("GGY", "146"), ("ANTARTIDA", "143"),
  ("ANTARCTICA", "143"), ("ATA", "143"),
  ("ISLA BOUVET", "173"), ("BOUVET ISLAND", "173"),
  ("ISLAS HEARD Y MCDONALD", "186"), ("ISLAS MALVINAS", "191"),
  ("FALKLAND ISLANDS", "191"), ("FLK", "191"),
  ("TERRITORIOS AUSTRALES FRANCESES", "781"), ("INTERPOL", "980"),
  ("NACIONES UNIDAS", "981"), ("NO APLICA", "0")
]

def ColombianCities.CITIES : List (String × String) := [
  ("MEDELLIN", "5001"), ("MEDELLÍN", "5001"),
  ("BOGOTA", "11001"), ("BOGOTÁ", "11001"),
  ("SANTA FE DE BOGOTA", "11001"), ("CALI", "76001"),
  ("SANTIAGO DE CALI", "76001"), ("BARRANQUILLA", "8001"),
  ("CARTAGENA", "13001"), ("CARTAGENA DE INDIAS", "13001"),
  ("SANTA MARTA", "47001"), ("BUCARAMANGA", "68001"),
  ("PEREIRA", "66001"), ("MANIZALES", "17001"),
  ("CUCUTA", "54001"), ("CÚCUTA", "54001"),
  ("IBAGUE", "73001"), ("IBAGUÉ", "73001"),
  ("VILLAVICENCIO", "50001"), ("PASTO", "52001"),
  ("SAN JUAN DE PASTO", "52001"), ("MONTERIA", "23001"),
  ("MONTERÍA", "23001"), ("NEIVA", "41001"),
  ("ARMENIA", "63001"), ("VALLEDUPAR", "20001"),
  ("POPAYAN", "19001"), ("POPAYÁN", "19001"),
  ("SINCELEJO", "70001"), ("TUNJA", "15001"),
  ("RIOHACHA", "44001"), ("QUIBDO", "27001"),
  ("QUIBDÓ", "27001"), ("FLORENCIA", "18001"),
  ("YOPAL", "85001"), ("MOCOA", "86001"),
  ("LETICIA", "91001"), ("ARAUCA", "81001"),
  ("INIRIDA", "94001"), ("INÍRIDA", "94001"),
  ("MITU", "97001"), ("MITÚ", "97001"),
  ("PUERTO CARRENO", "99001"), ("PUERTO CARREÑO", "99001"),
  ("SAN JOSE DEL GUAVIARE", "95001"), ("SAN JOSÉ DEL GUAVIARE", "95001"),
  ("SAN ANDRES", "88001"), ("SAN ANDRÉS", "88001"),
  ("SAN ANDRES ISLA", "88001"), ("PROVIDENCIA", "88564"),
  ("BUGA", "76111"), ("GUADALAJARA DE BUGA", "76111"),
  ("BUENAVENTURA", "76109"), ("BARICHARA", "68079"),
  ("VILLA DE LEYVA", "15407"), ("GUATAPE", "5321"),
  ("GUATAPÉ", "5321"), ("JARDIN", "5364"),
  ("JARDÍN", "5364"), ("SALENTO", "63690"),
  ("FILANDIA", "63272"), ("SANTA FE DE ANTIOQUIA", "5042"),
  ("SANTAFE DE ANTIOQUIA", "5042"), ("RIONEGRO", "5615"),
  ("ENVIGADO", "5266"), ("ITAGUI", "5360"),
  ("ITAGÜÍ", "5360"), ("BELLO", "5088"),
  ("SABANETA", "5631"), ("LA CEJA", "5376"),
  ("MARINILLA", "5440"), ("EL RETIRO", "5607"),
  ("RETIRO", "5607"), ("GIRARDOTA", "5308"),
  ("COPACABANA", "5212"), ("ZIPAQUIRA", "25899"),
  ("ZIPAQUIRÁ", "25899"), ("CHIA", "25175"),
  ("CHÍA", "25175"), ("CAJICA", "25126"),
  ("CAJICÁ", "25126"), ("SOACHA", "25754"),
  ("GIRARDOT", "25307"), ("MELGAR", "73449"),
  ("VILLETA", "25873"), ("LA MESA", "25386"),
  ("FUSAGASUGA", "25290"), ("FUSAGASUGÁ", "25290"),
  ("PALMIRA", "76520"), ("TULUA", "76834"),
  ("TULUÁ", "76834"), ("CARTAGO", "76147"),
  ("JAMUNDI", "76364"), ("JAMUNDÍ", "76364"),
  ("YUMBO", "76892"), ("SOLEDAD", "8758"),
  ("MALAMBO", "8433"), ("TURBACO", "13836"),
  ("MAGANGUE", "13430"), ("MAGANGUÉ", "13430"),
  ("LORICA", "23417"), ("CERETE", "23162"),
  ("CERETÉ", "23162"), ("SOGAMOSO", "15759"),
  ("DUITAMA", "15238"), ("PAIPA", "15516"),
  ("IPIALES", "52356"), ("TUMACO", "52835"),
  ("COLOMBIA", "169")
]

def DocumentTypes.CODES : List (String × String) := [
  ("PASAPORTE", "3"), ("PASSPORT", "3"),
  ("PAS", "3"), ("PP", "3"),
  ("CEDULA DE EXTRANJERIA", "5"), ("CEDULA EXTRANJERIA", "5"),
  ("CE", "5"), ("CARNE DIPLOMATICO", "46"),
  ("DIPLOMATIC", "46"), ("DIPLOMATICO", "46"),
  ("DOCUMENTO EXTRANJERO", "10"), ("FOREIGN DOCUMENT", "10"),
  ("PPT", "52"), ("PERMISO PROTECCION TEMPORAL", "52"),
  ("VISA", "10"), ("DNI", "3"),
  ("ID", "3"), ("NATIONAL ID", "3")
]

/-! ## CountryCodes -/

/-- The token-level fallback loop of `CountryCodes.get_code`: first word of
length ≥ 3 (in order) that occurs inside some table key; the first such key
(in table order) wins. -/
def CountryCodes.tokenMatch : List String → Option String
  | [] => Option.none
  | w :: ws =>
    if 3 ≤ w.length then
      match CountryCodes.CODES.find? (fun kc => pyIn w kc.1) with
      | some kc => some kc.2
      | Option.none => CountryCodes.tokenMatch ws
    else CountryCodes.tokenMatch ws

/-- `CountryCodes.get_code`: exact key → HIGH; substring either way →
MEDIUM (first key in table order); word of length ≥ 3 inside a key → LOW;
otherwise `("", NONE)`. -/
def CountryCodes.get_code (country : Value) : String × Confidence :=
  if pyFalsy country || is_nan_or_empty country then ("", .none)
  else
    let normalized := normalizeRef country.pyStr
    match assocLookup CountryCodes.CODES normalized with
    | some code => (code, .high)
    | Option.none =>
      match CountryCodes.CODES.find?
          (fun kc => pyIn normalized kc.1 || pyIn kc.1 normalized) with
      | some kc => (kc.2, .medium)
      | Option.none =>
        match CountryCodes.tokenMatch (pySplit normalized) with
        | some code => (code, .low)
        | Option.none => ("", .none)

/-- `CountryCodes.is_colombia`. -/
def CountryCodes.is_colombia (country : Value) : Bool :=
  (CountryCodes.get_code country).1 == "169"

/-! ## ColombianCities -/

/-- `ColombianCities.is_colombian_city`: exact key, else (only for
normalized length ≥ 5) the first table key contained in the text — note the
single direction of this containment test. -/
def ColombianCities.is_colombian_city (text : Value) : Bool × String :=
  if pyFalsy text || is_nan_or_empty text then (false, "")
  else
    let normalized := normalizeRef text.pyStr
    match assocLookup ColombianCities.CITIES normalized with
    | some code => (true, code)
    | Option.none =>
      if 5 ≤ normalized.length then
        match ColombianCities.CITIES.find? (fun kc => pyIn kc.1 normalized) with
        | some kc => (true, kc.2)
        | Option.none => (false, "")
      else (false, "")

/-- `ColombianCities.get_colombia_code_if_city`: any positive city match
yields the fixed national code at HIGH. -/
def ColombianCities.get_colombia_code_if_city (text : Value) : String × Confidence :=
  if (ColombianCities.is_colombian_city text).1 then ("169", .high) else ("", .none)

/-! ## DocumentTypes -/

/-- The normalization of `DocumentTypes.get_code`: uppercase + strip only
(no character filtering, unlike the country/city resolvers). -/
def DocumentTypes.normalize (s : String) : String := pyStrip (pyUpper s)

/-- `DocumentTypes.get_code`: empty input defaults to passport at LOW; the
first step tests containment in either direction (which subsumes exact
equality) and returns HIGH; keyword families give MEDIUM; default passport
LOW. -/
def DocumentTypes.get_code (doc_type : Value) : String × Confidence :=
  if pyFalsy doc_type || is_nan_or_empty doc_type then ("3", .low)
  else
    let normalized := DocumentTypes.normalize doc_type.pyStr
    match DocumentTypes.CODES.find?
        (fun kc => pyIn kc.1 normalized || pyIn normalized kc.1) with
    | some kc => (kc.2, .high)
    | Option.none =>
      if ["PASAP", "PASSPO", "PP"].any (fun w => pyIn w normalized) then ("3", .medium)
      else if ["CEDULA", "CE", "EXTRAN"].any (fun w => pyIn w normalized) then ("5", .medium)
      else if ["DIPLOM", "CARNE"].any (fun w => pyIn w normalized) then ("46", .medium)
      else if ["PPT", "PROTEC", "TEMPORAL"].any (fun w => pyIn w normalized) then ("52", .medium)
      else ("3", .low)

/-! ## DateParser -/

/-- A nonempty all-digit token. -/
def allDigits (l : List Char) : Bool := !l.isEmpty && l.all (·.isDigit)

/-- Numeric value of a digit token. -/
def natOfDigits (l : List Char) : Nat := l.foldl (fun a c => a * 10 + (c.toNat - 48)) 0

/-- The day field of `strptime` (`%d`): one or two digits, value 1..31. -/
def isDayTok (s : String) : Bool :=
  allDigits s.data && s.length ≤ 2 && 1 ≤ natOfDigits s.data && natOfDigits s.data ≤ 31

/-- The month field of `strptime` (`%m`): one or two digits, value 1..12. -/
def isMonTok (s : String) : Bool :=
  allDigits s.data && s.length ≤ 2 && 1 ≤ natOfDigits s.data && natOfDigits s.data ≤ 12

/-- The year field of `strptime` (`%Y`): exactly four digits. -/
def isYearTok (s : String) : Bool := allDigits s.data && s.length = 4

/-- Gregorian leap year, as `datetime` uses. -/
def isLeap (y : Nat) : Bool := y % 4 = 0 && (y % 100 ≠ 0 || y % 400 = 0)

/-- Days in a month, as `datetime` validates. -/
def daysInMonth (y m : Nat) : Nat :=
  if m = 2 then (if isLeap y then 29 else 28)
  else if m = 4 || m = 6 || m = 9 || m = 11 then 30
  else 31

/-- `datetime(y, m, d)` succeeds: calendar-valid and year ≥ MINYEAR = 1. -/
def validDate (d m y : Nat) : Bool :=
  1 ≤ y && 1 ≤ m && m ≤ 12 && 1 ≤ d && d ≤ daysInMonth y m

/-- Shared check for the numeric three-field formats, given the three split
pieces already assigned to day/month/year position. -/
def mkDMY (d m y : String) : Option (Nat × Nat × Nat) :=
  if isDayTok d && isMonTok m && isYearTok y then
    let dn := natOfDigits d.data
    let mn := natOfDigits m.data
    let yn := natOfDigits y.data
    if validDate dn mn yn then some (dn, mn, yn) else Option.none
  else Option.none

/-- `strptime` for a `day sep month sep year` format. -/
def tryDMY (sep : Char) (s : String) : Option (Nat × Nat × Nat) :=
  match splitChar sep s with
  | [d, m, y] => mkDMY d m y
  | _ => Option.none

/-- `strptime` for a `year sep month sep day` format. -/
def tryYMD (sep : Char) (s : String) : Option (Nat × Nat × Nat) :=
  match splitChar sep s with
  | [y, m, d] => mkDMY d m y
  | _ => Option.none

/-- `strptime` for the US `month sep day sep year` format. -/
def tryMDY (sep : Char) (s : String) : Option (Nat × Nat × Nat) :=
  match splitChar sep s with
  | [m, d, y] => mkDMY d m y
  | _ => Option.none

/-- Abbreviated month names of `%b` (C locale), matched case-insensitively. -/
def monthAbbr : List String :=
  ["jan", "feb", "mar", "apr", "may", "jun", "jul", "aug", "sep", "oct", "nov", "dec"]

/-- Full month names of `%B` (C locale), matched case-insensitively. -/
def monthFull : List String :=
  ["january", "february", "march", "april", "may", "june", "july", "august",
   "september", "october", "november", "december"]

/-- Month number of a (case-insensitive) month-name token, if any. -/
def monthIdx (names : List String) (tok : String) : Option Nat :=
  match names.findIdx? (fun n => n = pyLower tok) with
  | some i => some (i + 1)
  | Option.none => Option.none

/-- No leading or trailing whitespace (a literal space in a `strptime`
format compiles to the regex `\s+`, which cannot match an empty run, and
the format begins/ends with a field). -/
def noEdgeWs (l : List Char) : Bool :=
  (match l.head? with | some c => !pyIsSpace c | Option.none => true) &&
  (match l.reverse.head? with | some c => !pyIsSpace c | Option.none => true)

/-- `strptime` for `%d %b %Y` / `%d %B %Y`: exactly three whitespace-run
separated tokens, no edge whitespace, day / month-name / four-digit year. -/
def tryNamedMonth (names : List String) (s : String) : Option (Nat × Nat × Nat) :=
  if noEdgeWs s.data then
    match pySplit s with
    | [d, b, y] =>
      match monthIdx names b with
      | some mn =>
        if isDayTok d && isYearTok y then
          let dn := natOfDigits d.data
          let yn := natOfDigits y.data
          if validDate dn mn yn then some (dn, mn, yn) else Option.none
        else Option.none
      | Option.none => Option.none
    | _ => Option.none
  else Option.none

/-- The fixed format list `DateParser.FORMATS`, in order. -/
inductive DFormat where
  | dmySlash   -- %d/%m/%Y
  | ymdDash    -- %Y-%m-%d
  | dmyDash    -- %d-%m-%Y
  | mdySlash   -- %m/%d/%Y
  | dmyDot     -- %d.%m.%Y
  | ymdSlash   -- %Y/%m/%d
  | dbY        -- %d %b %Y
  | dBY        -- %d %B %Y
deriving DecidableEq, Repr

/-- `DateParser.FORMATS` in source order. -/
def DateParser.FORMATS : List DFormat :=
  [.dmySlash, .ymdDash, .dmyDash, .mdySlash, .dmyDot, .ymdSlash, .dbY, .dBY]

/-- `datetime.strptime(s, fmt)` for the formats of the list (`some` iff it
does not raise `ValueError`). -/
def strptime : DFormat → String → Option (Nat × Nat × Nat)
  | .dmySlash, s => tryDMY '/' s
  | .ymdDash, s => tryYMD '-' s
  | .dmyDash, s => tryDMY '-' s
  | .mdySlash, s => tryMDY '/' s
  | .dmyDot, s => tryDMY '.' s
  | .ymdSlash, s => tryYMD '/' s
  | .dbY, s => tryNamedMonth monthAbbr s
  | .dBY, s => tryNamedMonth monthFull s

/-- Confidence the parser attaches per format: `%d/%m/%Y` and `%Y-%m-%d`
are HIGH, the rest MEDIUM. -/
def fmtConf : DFormat → Confidence
  | .dmySlash => .high
  | .ymdDash => .high
  | _ => .medium

/-- The format loop of `DateParser.parse`: first format that parses AND has
year in `1900 .. today + 1`; a parse whose year is out of range just moves
on to the next format, leaving no trace. -/
def DateParser.tryFormats (today : Nat) (s : String) : Option (String × Confidence) :=
  DateParser.FORMATS.findSome? (fun f =>
    match strptime f s with
    | some (d, m, y) =>
      if 1900 ≤ y && y ≤ today + 1 then some (fmtDate d m y, fmtConf f) else Option.none
    | Option.none => Option.none)

/-- The string preprocessing of `DateParser.parse`: strip, then keep only
the first whitespace-split token when a space character occurs. -/
def DateParser.prep (s : String) : String :=
  let ds := pyStrip s
  if ds.data.contains ' ' then (match pySplit ds with | t :: _ => t | [] => ds) else ds

/-- `DateParser.parse` (with `datetime.now().year` passed as `today`):
empty/NaN-like input → `("", NONE)`; a native temporal value formats at
HIGH; otherwise the format loop, with the unconditional fallthrough
`("", LOW)`. -/
def DateParser.parse (today : Nat) (v : Value) : String × Confidence :=
  if is_nan_or_empty v then ("", .none)
  else
    match v with
    | .ts d m y => (fmtDate d m y, .high)
    | .vnone => ("", .none)
    | .nan => ("", .none)
    | .str s =>
      let ds := pyStrip s
      if ds = "" || pyLower ds ∈ ["nan", "none", "nat", ""] then ("", .none)
      else
        match DateParser.tryFormats today (DateParser.prep s) with
        | some r => r
        | Option.none => ("", .low)

/-! ## TextNormalizer -/

/-- The character class kept by `re.sub(r"[^a-zA-ZÀ-ÿ\s\-\x27]", '', ...)`
of `normalize_name`: ASCII letters, the Latin-1 range U+00C0..U+00FF,
whitespace, hyphen and apostrophe. -/
def nameKeep (c : Char) : Bool :=
  ('a' ≤ c && c ≤ 'z') || ('A' ≤ c && c ≤ 'Z') ||
  (0xC0 ≤ c.toNat && c.toNat ≤ 0xFF) || pyIsSpace c || c = '-' || c = Char.ofNat 39

/-- `TextNormalizer.normalize_name`: filter the kept class, collapse
whitespace, strip, uppercase.  Empty/NaN input yields `""`. -/
def TextNormalizer.normalize_name (text : Value) : String :=
  if pyFalsy text || is_nan_or_empty text then ""
  else
    pyUpper (pyJoin " " (pySplit (⟨text.pyStr.data.filter nameKeep⟩ : String)))

/-- `TextNormalizer.split_full_name`, returning
`(primer_apellido, segundo_apellido, nombres)` by token count: 0 → all
empty; 1 → single token as first surname slot; 2 → `(second, "", first)`;
3 → `(last, "", first two joined)`; ≥ 4 → last two tokens are the two
surnames, the rest join as given names. -/
def TextNormalizer.split_full_name (full : Value) : String × String × String :=
  if pyFalsy full || is_nan_or_empty full then ("", "", "")
  else
    let parts := pySplit (TextNormalizer.normalize_name full)
    if parts.length = 0 then ("", "", "")
    else if parts.length = 1 then (parts.getD 0 "", "", "")
    else if parts.length = 2 then (parts.getD 1 "", "", parts.getD 0 "")
    else if parts.length = 3 then
      (parts.getD 2 "", "", pyJoin " " (parts.take 2))
    else
      (parts.getD (parts.length - 2) "", parts.getD (parts.length - 1) "",
       pyJoin " " (parts.take (parts.length - 2)))

/-! ## InferenceEngine -/

/-- `InferenceEngine.infer_nationality_from_origin`: country-resolve the
origin, then downgrade confidence (HIGH → MEDIUM, otherwise LOW). -/
def InferenceEngine.infer_nationality_from_origin (procedencia : Value) : String × Confidence :=
  let r := CountryCodes.get_code procedencia
  if r.1 ≠ "" then (r.1, if r.2 = .high then .medium else .low) else ("", .none)

/-! ## DocumentValidator -/

/-- `DocumentValidator.validate_document`: ordered checks — empty, length
< 5, length > 20, null-like token, all characters identical after removing
hyphens. -/
def DocumentValidator.validate_document (doc_number : String) : Bool × String :=
  if doc_number = "" then (false, "Documento vacío")
  else
    let d := pyUpper (pyStrip doc_number)
    if d.length < 5 then (false, "Documento muy corto")
    else if 20 < d.length then (false, "Documento muy largo")
    else if d ∈ ["NAN", "NONE", "NULL", "N/A", "-"] then (false, "Documento inválido")
    else if (d.data.filter (fun c => c ≠ '-')).dedup.length = 1 then
      (false, "Documento con patrón inválido")
    else (true, "OK")

/-! ## ColumnDetector -/

/-- The content-matching regexes appearing in `FIELD_PATTERNS`, one
constructor per regex literal of the source. -/
inductive ContentPattern where
  | docTypeKw    -- r'pasaporte|passport|cedula|dni|visa|ppt'
  | passportAN   -- r'^[A-Z]{1,2}\d{6,9}$'
  | digits8to12  -- r'^\d{8,12}$'
  | alnum6to12   -- r'^[A-Z0-9]{6,12}$'
  | dateDMY      -- r'\d{1,2}[slash or dash]\d{1,2}[slash or dash]\d{2,4}'
  | dateYMD      -- r'\d{4}[slash or dash]\d{1,2}[slash or dash]\d{1,2}'
deriving DecidableEq, Repr

/-- ASCII letter (the class `[A-Z]` under `re.IGNORECASE`). -/
def isAsciiAlpha (c : Char) : Bool := ('A' ≤ c && c ≤ 'Z') || ('a' ≤ c && c ≤ 'z')

/-- Consume exactly `n` leading digits. -/
def eatDigits : Nat → List Char → Option (List Char)
  | 0, l => some l
  | _ + 1, [] => Option.none
  | n + 1, c :: t => if c.isDigit then eatDigits n t else Option.none

/-- Consume one `[slash or dash]` separator. -/
def eatSep : List Char → Option (List Char)
  | c :: t => if c = '/' || c = '-' then some t else Option.none
  | [] => Option.none

/-- At least `n` leading digits follow (the tail of a prefix-anchored
pattern is unconstrained, so a greedy `\d{n,m}` only needs `n`). -/
def hasDigits : Nat → List Char → Bool
  | 0, _ => true
  | _ + 1, [] => false
  | n + 1, c :: t => c.isDigit && hasDigits n t

/-- Prefix match of `\d{1,2}[slash or dash]\d{1,2}[slash or dash]\d{2,4}` (backtracking means:
some choice of field widths succeeds). -/
def matchDatePrefixDMY (l : List Char) : Bool :=
  [(1, 1), (1, 2), (2, 1), (2, 2)].any (fun ab =>
    match eatDigits ab.1 l with
    | some r1 =>
      match eatSep r1 with
      | some r2 =>
        match eatDigits ab.2 r2 with
        | some r3 =>
          match eatSep r3 with
          | some r4 => hasDigits 2 r4
          | Option.none => false
        | Option.none => false
      | Option.none => false
    | Option.none => false)

/-- Prefix match of `\d{4}[slash or dash]\d{1,2}[slash or dash]\d{1,2}`. -/
def matchDatePrefixYMD (l : List Char) : Bool :=
  [1, 2].any (fun b =>
    match eatDigits 4 l with
    | some r1 =>
      match eatSep r1 with
      | some r2 =>
        match eatDigits b r2 with
        | some r3 =>
          match eatSep r3 with
          | some r4 => hasDigits 1 r4
          | Option.none => false
        | Option.none => false
      | Option.none => false
    | Option.none => false)

/-- `re.match(pattern, v, re.IGNORECASE)` for each content pattern. -/
def matchesPattern (p : ContentPattern) (v : String) : Bool :=
  match p with
  | .docTypeKw =>
    ["pasaporte", "passport", "cedula", "dni", "visa", "ppt"].any
      (fun k => chStarts k.data (pyLower v).data)
  | .passportAN =>
    let letters := v.data.takeWhile isAsciiAlpha
    let rest := v.data.drop letters.length
    (letters.length = 1 || letters.length = 2) && !rest.isEmpty &&
      rest.all (·.isDigit) && 6 ≤ rest.length && rest.length ≤ 9
  | .digits8to12 =>
    v.data.all (·.isDigit) && 8 ≤ v.length && v.length ≤ 12
  | .alnum6to12 =>
    v.data.all (fun c => isAsciiAlpha c || c.isDigit) && 6 ≤ v.length && v.length ≤ 12
  | .dateDMY => matchDatePrefixDMY v.data
  | .dateYMD => matchDatePrefixYMD v.data

/-- One field's configuration in `FIELD_PATTERNS`.  (The `exclude_patterns`
key of `numero_documento` is dead data: `detect_columns` never reads it, so
it is not modelled.) -/
structure FieldConfig where
  names : List String
  contentPatterns : List ContentPattern := []
  excludeKeywords : List String := []
  priority : Nat := 99
deriving DecidableEq, Repr

/-- `ColumnDetector.FIELD_PATTERNS`, in dict insertion order. -/
def ColumnDetector.FIELD_PATTERNS : List (String × FieldConfig) := [
  ("tipo_documento",
    { names := ["tipo de documento", "document type", "tipo documento",
                "doc type", "id type", "tipo de id", "tipo id"],
      contentPatterns := [.docTypeKw], priority := 1 }),
  ("numero_documento",
    { names := ["document number", "numero documento", "número de documento",
                "numero de identificacion", "número de identificación",
                "passport number", "passport no", "id number",
                "doc number", "document no", "numero del documento",
                "número del documento", "no. documento", "nro documento",
                "n documento", "num documento", "numero id", "no identificacion",
                "número identificación"],
      contentPatterns := [.passportAN, .digits8to12, .alnum6to12],
      excludeKeywords := ["tipo"], priority := 2 }),
  ("nombres",
    { names := ["name", "first name", "nombres", "given name", "firstname",
                "given names", "nombre", "primer nombre"] }),
  ("primer_apellido",
    { names := ["surname", "last name", "apellido", "primer apellido",
                "family name", "lastname", "apellidos"] }),
  ("nombre_completo",
    { names := ["guest name", "nombre completo", "full name", "guest",
                "huesped", "nombre y apellido", "huésped", "cliente"] }),
  ("nacionalidad",
    { names := ["country", "nationality", "nacionalidad", "pais", "país",
                "citizen", "citizenship", "nation"] }),
  ("fecha_nacimiento",
    { names := ["birthday", "birth date", "fecha nacimiento", "date of birth",
                "birthdate", "dob", "nacimiento", "born", "cumpleaños",
                "fecha de nacimiento", "f. nacimiento"],
      contentPatterns := [.dateDMY, .dateYMD] }),
  ("fecha_checkin",
    { names := ["arrival date", "arrival", "check-in", "checkin", "check in",
                "llegada", "entrada", "fecha entrada", "fecha llegada",
                "fecha de llegada", "ingreso"] }),
  ("fecha_checkout",
    { names := ["departure date", "departure", "check-out", "checkout",
                "check out", "salida", "fecha salida", "fecha checkout",
                "fecha de salida", "egreso"] }),
  ("procedencia",
    { names := ["pais de procedencia", "country of origin", "origin country",
                "procedencia", "from", "origen", "viene de"] }),
  ("destino",
    { names := ["pais de destino", "destination country", "destino",
                "destination", "to", "va a", "hacia"] })]

/-- The priority-sorted field list of `detect_columns`.  The insertion
order of `FIELD_PATTERNS` is already nondecreasing in priority
(1, 2, 99, 99, ...), so Python's stable `sorted` leaves it unchanged. -/
def ColumnDetector.sortedFields : List (String × FieldConfig) := ColumnDetector.FIELD_PATTERNS

/-- `ColumnDetector._similarity`: 1.0 on (lowercased) equality, else shared
distinct words over the larger distinct-word count, 0.0 when either has no
words. -/
def ColumnDetector.similarity (s1 s2 : String) : ℚ :=
  let t1 := pyLower s1
  let t2 := pyLower s2
  if t1 = t2 then 1
  else
    let w1 := (pySplit t1).dedup
    let w2 := (pySplit t2).dedup
    if w1 = [] ∨ w2 = [] then 0
    else ((w1.filter (fun w => w ∈ w2)).length : ℚ) / (max w1.length w2.length)

/-- `ColumnDetector._fuzzy_match`: exact pattern hit returns `(True, 1.0)`
at once; otherwise the best over patterns of the containment score
`len(pattern)/max(len(column), len(pattern)) + 0.3` (note the numerator is
always the pattern's length) and the word similarity. -/
def ColumnDetector.fuzzy_match (column : String) (patterns : List String)
    (threshold : ℚ) : Bool × ℚ :=
  let colLower := pyStrip (pyLower column)
  if patterns.any (fun p => colLower = p) then (true, 1)
  else
    let best := patterns.foldl (fun best p =>
      let best :=
        if pyIn p colLower || pyIn colLower p then
          max best ((p.length : ℚ) / (max colLower.length p.length) + 3 / 10)
        else best
      max best (ColumnDetector.similarity colLower p)) 0
    (decide (threshold ≤ best), best)

/-- `ColumnDetector._should_exclude_column`. -/
def ColumnDetector.should_exclude (column : String) (config : FieldConfig) : Bool :=
  config.excludeKeywords.any (fun k => pyIn (pyLower k) (pyLower column))

/-! ## Tabular dataset -/

/-- One row: an assoc list from column identifier to cell value (a missing
entry reads as absent, like a NaN cell). -/
def Row := List (String × Value)

/-- `row.get(col)`: the cell, or absent. -/
def rowGet (r : Row) (c : String) : Value :=
  match r.find? (fun e => e.1 == c) with
  | some e => e.2
  | Option.none => Value.vnone

/-- The tabular dataset handed to the engine: ordered columns, ordered
rows. -/
structure DataFrame where
  columns : List String
  rows : List Row

/-- `df[col].dropna().head(10).astype(str)`: the first 10 present cells of
a column, in row order, stringified. -/
def sampleOf (df : DataFrame) (col : String) : List String :=
  (((df.rows.map (fun r => rowGet r col)).filter
      (fun v => v ≠ Value.vnone ∧ v ≠ Value.nan)).take 10).map
    Value.pyStr

/-! ## detect_columns -/

/-- Mutable state of `detect_columns`: the `detected` dict (insertion
order) and the `used_columns` set. -/
structure DetectState where
  detected : List (String × (String × Confidence))
  used : List String
deriving DecidableEq, Repr

/-- `field in detected`. -/
def DetectState.has (st : DetectState) (f : String) : Bool :=
  st.detected.any (fun e => e.1 == f)

/-- Pass 1 for one field: the first unclaimed, non-excluded column whose
fuzzy score is ≥ 0.8 is claimed at HIGH. -/
def ColumnDetector.pass1Step (columns : List String) (st : DetectState)
    (fc : String × FieldConfig) : DetectState :=
  match columns.find? (fun col =>
      !(st.used.contains col) && !(ColumnDetector.should_exclude col fc.2) &&
      decide ((8 : ℚ) / 10 ≤ (ColumnDetector.fuzzy_match col fc.2.names (1 / 2)).2)) with
  | some col => ⟨st.detected ++ [(fc.1, (col, .high))], col :: st.used⟩
  | Option.none => st

/-- Pass 2 for one field (skipped when already detected): threshold 0.4,
claimed at MEDIUM. -/
def ColumnDetector.pass2Step (columns : List String) (st : DetectState)
    (fc : String × FieldConfig) : DetectState :=
  if st.has fc.1 then st
  else
    match columns.find? (fun col =>
        !(st.used.contains col) && !(ColumnDetector.should_exclude col fc.2) &&
        (ColumnDetector.fuzzy_match col fc.2.names (4 / 10)).1) with
    | some col => ⟨st.detected ++ [(fc.1, (col, .medium))], col :: st.used⟩
    | Option.none => st

/-- The critical fields of pass 3, in the order of the source list. -/
def ColumnDetector.criticalFields : List String :=
  ["numero_documento", "fecha_nacimiento", "nacionalidad"]

/-- Assoc lookup in `FIELD_PATTERNS` (`FIELD_PATTERNS.get(field, {})`). -/
def ColumnDetector.configOf (f : String) : FieldConfig :=
  match ColumnDetector.FIELD_PATTERNS.find? (fun e => e.1 == f) with
  | some e => e.2
  | Option.none => {names := []}

/-- The ≥ 50 %-of-sample content test of pass 3 for one column.  An empty
sample passes vacuously (`0 ≥ 0 * 0.5`). -/
def ColumnDetector.contentTest (df : DataFrame) (config : FieldConfig) (col : String) : Bool :=
  let sample := sampleOf df col
  let hits := (sample.filter (fun v =>
    config.contentPatterns.any (fun p => matchesPattern p (pyStrip v)))).length
  decide (((sample.length : ℚ) * (1 / 2)) ≤ (hits : ℚ))

/-- Pass 3 for one critical field: content-pattern sniffing over unclaimed
non-excluded columns, claimed at LOW. -/
def ColumnDetector.pass3Step (df : DataFrame) (st : DetectState) (f : String) : DetectState :=
  if st.has f then st
  else
    let config := ColumnDetector.configOf f
    if config.contentPatterns = [] then st
    else
      match df.columns.find? (fun col =>
          !(st.used.contains col) && !(ColumnDetector.should_exclude col config) &&
          ColumnDetector.contentTest df config col) with
      | some col => ⟨st.detected ++ [(f, (col, .low))], col :: st.used⟩
      | Option.none => st

/-- The state after the two name-matching passes. -/
def ColumnDetector.pass12 (df : DataFrame) : DetectState :=
  let st1 := ColumnDetector.sortedFields.foldl (ColumnDetector.pass1Step df.columns) ⟨[], []⟩
  ColumnDetector.sortedFields.foldl (ColumnDetector.pass2Step df.columns) st1

/-- `ColumnDetector.detect_columns`: the detected map after the three
passes. -/
def ColumnDetector.detect_columns (df : DataFrame) : List (String × (String × Confidence)) :=
  (ColumnDetector.criticalFields.foldl (ColumnDetector.pass3Step df)
    (ColumnDetector.pass12 df)).detected

/-! ## SireConverter -/

/-- Constructor configuration of `SireConverter`, plus the current year
(`datetime.now().year`) used by the date range check. -/
structure ConvConfig where
  hotel_code : String
  city_code : String := "5001"
  today : Nat

/-- The column map produced by detection. -/
def ColumnMap := List (String × (String × Confidence))

/-- `field in self.column_map`. -/
def cmapHas (cmap : ColumnMap) (f : String) : Bool :=
  cmap.any (fun e => e.1 == f)

/-- `SireConverter._get_value`: `None` when the field is undetected, else
`row.get(col)`. -/
def getValue (cmap : ColumnMap) (row : Row) (f : String) : Value :=
  match cmap.find? (fun e => e.1 == f) with
  | some e => rowGet row e.2.1
  | Option.none => Value.vnone

/-- Python `str(x or "")` / `str(x) if x else ""` for cell values. -/
def pyStrOrEmpty (v : Value) : String := if pyFalsy v then "" else v.pyStr

/-- The document extraction of `_process_guest`: stringify+strip the cell
(empty when falsy), then blank out the null-like renderings. -/
def extractDocStr (cmap : ColumnMap) (row : Row) : String :=
  let v := getValue cmap row "numero_documento"
  let s := if pyFalsy v then "" else pyStrip v.pyStr
  if pyLower s ∈ ["nan", "none", "", "null"] then "" else s

/-- The nationality resolution of `_process_guest`: direct resolution,
overwritten by origin-inference when the direct code is empty and a
`procedencia` column was detected.  The boolean reports whether the
inference produced a nonempty code (warning + inferred counter). -/
def resolveNationality (cmap : ColumnMap) (row : Row) : String × Confidence × Bool :=
  let r := CountryCodes.get_code (getValue cmap row "nacionalidad")
  if r.1 = "" ∧ cmapHas cmap "procedencia" then
    let r2 := InferenceEngine.infer_nationality_from_origin (getValue cmap row "procedencia")
    (r2.1, r2.2, r2.1 ≠ "")
  else (r.1, r.2, false)

/-- `SireConverter._process_guest`.  Returns the guest record (`none`
means a domestic national, dropped before record assembly) together with
the number of increments `_process_guest` applied to the `inferidos`
counter (the source mutates `self.stats` in place; the counter can move
even when the row is then dropped as domestic). -/
def process_guest (cfg : ConvConfig) (cmap : ColumnMap) (mt : String) (idx : Nat)
    (row : Row) : Option GuestRecord × Nat :=
  let rn := idx + 2
  let doc_str := extractDocStr cmap row
  let vd := DocumentValidator.validate_document doc_str
  if !vd.1 then
    (some { row_number := rn, errors := ["Documento: " ++ vd.2] }, 0)
  else
    let documento : FieldResult := ⟨doc_str, .high, "numero_documento", ""⟩
    let tipo := DocumentTypes.get_code (getValue cmap row "tipo_documento")
    let tipo_documento : FieldResult := ⟨tipo.1, tipo.2, "tipo_documento", ""⟩
    -- primer_apellido column, split into up to two surnames
    let apPair : Option FieldResult × Option FieldResult :=
      if cmapHas cmap "primer_apellido" then
        let raw := pyStrOrEmpty (getValue cmap row "primer_apellido")
        let parts := pySplit (pyStrip raw)
        if 2 ≤ parts.length then
          let primer := TextNormalizer.normalize_name (.str (parts.getD 0 ""))
          let segundo := TextNormalizer.normalize_name (.str (pyJoin " " (parts.drop 1)))
          (some ⟨primer, .high, "primer_apellido", ""⟩,
           some ⟨segundo, if segundo ≠ "" then .high else .none, "", ""⟩)
        else
          let primer := TextNormalizer.normalize_name (.str raw)
          (some ⟨primer, .high, "primer_apellido", ""⟩,
           some ⟨"", .none, "", ""⟩)
      else (Option.none, Option.none)
    -- nombres column, or split of a combined full-name column
    let nombresTriple : Option FieldResult × (Option FieldResult × Option FieldResult) × Nat :=
      if cmapHas cmap "nombres" then
        (some ⟨TextNormalizer.normalize_name (getValue cmap row "nombres"), .high,
               "nombres", ""⟩, apPair, 0)
      else if cmapHas cmap "nombre_completo" ∧ apPair.1 = Option.none then
        let t := TextNormalizer.split_full_name (getValue cmap row "nombre_completo")
        (some ⟨t.2.2, .medium, "nombre_completo (inferido)", ""⟩,
         (some ⟨t.1, .medium, "nombre_completo (inferido)", ""⟩,
          some ⟨t.2.1, .medium, "", ""⟩), 1)
      else (Option.none, apPair, 0)
    let nombres := nombresTriple.1
    let primer_apellido := nombresTriple.2.1.1
    let segundo_apellido := nombresTriple.2.1.2
    let inferidos1 := nombresTriple.2.2
    -- nationality, with origin inference
    let nac := resolveNationality cmap row
    let warns1 : List String :=
      if nac.2.2 then ["Nacionalidad inferida desde procedencia"] else []
    let inferidos2 := if nac.2.2 then 1 else 0
    if nac.1 = "169" then
      (Option.none, inferidos1 + inferidos2)
    else
      let nacionalidad : FieldResult := ⟨nac.1, nac.2.1, "nacionalidad", ""⟩
      -- movement and birth dates
      let fechaMovVal :=
        if mt = "E" then getValue cmap row "fecha_checkin"
        else getValue cmap row "fecha_checkout"
      let fm := DateParser.parse cfg.today fechaMovVal
      let fecha_movimiento : FieldResult := ⟨fm.1, fm.2, "", ""⟩
      let fn := DateParser.parse cfg.today (getValue cmap row "fecha_nacimiento")
      let fecha_nacimiento : FieldResult := ⟨fn.1, fn.2, "", ""⟩
      -- procedencia, falling back to the resolved nationality
      let pr := CountryCodes.get_code (getValue cmap row "procedencia")
      let prInfer := pr.1 = "" ∧ nacionalidad.value ≠ ""
      let proc_code := if prInfer then nacionalidad.value else pr.1
      let proc_conf := if prInfer then Confidence.low else pr.2
      let warns2 : List String :=
        warns1 ++ (if prInfer then ["Procedencia inferida desde nacionalidad"] else [])
      let proc_value := if proc_code ≠ "" then proc_code else nacionalidad.value
      let proc_final_conf := if proc_conf ≠ .none then proc_conf else .low
      let procedencia : FieldResult := ⟨proc_value, proc_final_conf, "", ""⟩
      -- destino: domestic city first, then country, then default Colombia
      let destScan := ColombianCities.get_colombia_code_if_city (getValue cmap row "destino")
      let dest :=
        if destScan.1 = "" then CountryCodes.get_code (getValue cmap row "destino")
        else destScan
      let dest_value := if dest.1 ≠ "" then dest.1 else "169"
      let dest_final_conf := if dest.2 ≠ .none then dest.2 else .low
      let destino : FieldResult := ⟨dest_value, dest_final_conf, "", ""⟩
      -- final required-field validation
      let required : List (String × Option FieldResult) :=
        [("documento", some documento), ("nombres", nombres),
         ("primer_apellido", primer_apellido), ("nacionalidad", some nacionalidad),
         ("fecha_movimiento", some fecha_movimiento),
         ("fecha_nacimiento", some fecha_nacimiento)]
      let errs := required.filterMap (fun fr =>
        match fr.2 with
        | Option.none => some ("Falta " ++ fr.1)
        | some r => if r.value = "" then some ("Falta " ++ fr.1) else Option.none)
      (some { row_number := rn, documento := some documento,
              tipo_documento := some tipo_documento, nombres := nombres,
              primer_apellido := primer_apellido, segundo_apellido := segundo_apellido,
              nacionalidad := some nacionalidad,
              fecha_nacimiento := some fecha_nacimiento,
              fecha_movimiento := some fecha_movimiento,
              procedencia := some procedencia, destino := some destino,
              is_valid := errs.isEmpty, errors := errs, warnings := warns2 },
       inferidos1 + inferidos2)

/-- `ConversionStats` (the `self.stats` dict). -/
structure Stats where
  total : Nat := 0
  valid : Nat := 0
  skipped : Nat := 0
  colombianos : Nat := 0
  duplicados : Nat := 0
  inferidos : Nat := 0
deriving DecidableEq, Repr

/-- The per-pass mutable state of `convert`: output lines, the dedup key
set, counters, and the error/warning logs. -/
structure ConvState where
  lines : List String
  seen : List String
  stats : Stats
  errors : List String
  warnings : List String
deriving DecidableEq, Repr

/-- The value of an optional field, `""` when absent (in the source the
attribute accesses on `guest.documento`/`guest.fecha_movimiento` happen
only for valid guests, whose required fields are all present). -/
def fieldVal (o : Option FieldResult) : String :=
  match o with
  | some f => f.value
  | Option.none => ""

/-- The dedup key `f"{documento}|{fecha_movimiento}|{movement_type}"`. -/
def dedupKey (g : GuestRecord) (mt : String) : String :=
  fieldVal g.documento ++ "|" ++ fieldVal g.fecha_movimiento ++ "|" ++ mt

/-- The 13 output fields of one accepted record, in the fixed order. -/
def lineFields (cfg : ConvConfig) (mt : String) (g : GuestRecord) : List String :=
  [cfg.hotel_code,
   cfg.city_code,
   (match g.tipo_documento with | some f => f.value | Option.none => "3"),
   fieldVal g.documento,
   fieldVal g.nacionalidad,
   fieldVal g.primer_apellido,
   fieldVal g.segundo_apellido,
   fieldVal g.nombres,
   mt,
   fieldVal g.fecha_movimiento,
   fieldVal g.procedencia,
   (match g.destino with | some f => f.value | Option.none => "169"),
   fieldVal g.fecha_nacimiento]

/-- `"\t".join(fields)`. -/
def buildLine (cfg : ConvConfig) (mt : String) (g : GuestRecord) : String :=
  pyJoin "\t" (lineFields cfg mt g)

/-- One iteration of the row loop of `convert`. -/
def convertStep (cfg : ConvConfig) (cmap : ColumnMap) (mt : String) (st : ConvState)
    (ir : Nat × Row) : ConvState :=
  match process_guest cfg cmap mt ir.1 ir.2 with
  | (Option.none, d) =>
    { st with stats := { st.stats with
        colombianos := st.stats.colombianos + 1,
        inferidos := st.stats.inferidos + d } }
  | (some g, d) =>
    let stats0 := { st.stats with inferidos := st.stats.inferidos + d }
    if g.is_valid = false then
      { st with
        stats := { stats0 with skipped := stats0.skipped + 1 },
        errors := st.errors ++ g.errors.map
          (fun e => "Fila " ++ toString g.row_number ++ ": " ++ e) }
    else
      let key := dedupKey g mt
      if key ∈ st.seen then
        { st with stats := { stats0 with duplicados := stats0.duplicados + 1 } }
      else
        { st with
          lines := st.lines ++ [buildLine cfg mt g],
          seen := st.seen ++ [key],
          stats := { stats0 with valid := stats0.valid + 1 },
          warnings := st.warnings ++ g.warnings.map
            (fun w => "Fila " ++ toString g.row_number ++ ": " ++ w) }

/-- The state after the whole row loop of `convert` (stats reset with
`total = len(df)`, then one `convertStep` per row in order). -/
def convertRun (cfg : ConvConfig) (df : DataFrame) (mt : String) : ConvState :=
  let cmap := ColumnDetector.detect_columns df
  let st0 : ConvState := ⟨[], [], { total := df.rows.length }, [], []⟩
  df.rows.enum.foldl (convertStep cfg cmap mt) st0

/-- `SireConverter.convert`: the output lines and the statistics. -/
def convert (cfg : ConvConfig) (df : DataFrame) (mt : String) : List String × Stats :=
  let st := convertRun cfg df mt
  (st.lines, st.stats)

/-! ## Spec-side comparison definitions -/

/-- Modelled from the spec's words: "token-set Jaccard similarity (shared
whitespace-split words ÷ larger word-set size)". -/
def specJaccard (a b : String) : ℚ :=
  let w1 := (pySplit a).dedup
  let w2 := (pySplit b).dedup
  ((w1.filter (fun w => w ∈ w2)).length : ℚ) / (max w1.length w2.length)

/-- Modelled from the spec's words (claim C3): "1.0 on exact
(case-insensitive) equality; otherwise the best of (a) containment-based
score = `len(shorter)/len(longer) + 0.3` when one string contains the
other, and (b) token-set Jaccard similarity". -/
def specClaimFuzzyScore (column candidate : String) : ℚ :=
  let a := pyLower column
  let b := pyLower candidate
  if a = b then 1
  else
    max
      (if pyIn a b || pyIn b a then
        ((min a.length b.length : ℚ) / (max a.length b.length : ℚ)) + 3 / 10
      else 0)
      (specJaccard a b)

/-- The amended fuzzy-score formula actually computed by the source: the
containment numerator is always the candidate's length (so a column
contained in a longer candidate scores `1.3`), not the shorter string's. -/
def amendedFuzzyScore (column candidate : String) : ℚ :=
  let c := pyStrip (pyLower column)
  if c = candidate then 1
  else
    max
      (if pyIn candidate c || pyIn c candidate then
        ((candidate.length : ℚ) / (max c.length candidate.length : ℚ)) + 3 / 10
      else 0)
      (ColumnDetector.similarity c candidate)

/-- The four exclusive statistic buckets of one conversion pass. -/
def bucketSum (s : Stats) : Nat := s.valid + s.skipped + s.colombianos + s.duplicados

/-- The columns assigned so far by the detector. -/
def detectedCols (st : DetectState) : List String := st.detected.map (fun e => e.2.1)

/-- The detector invariant: every assigned column is in the used set, and
no column is assigned twice. -/
def DInv (st : DetectState) : Prop :=
  (∀ e ∈ st.detected, e.2.1 ∈ st.used) ∧ (detectedCols st).Nodup

/-! ## Concrete fixtures for witnesses and counterexamples -/

/-- A converter configured as in the spec's scenarios, run in 2025. -/
def fixCfg : ConvConfig := ⟨"H1", "5001", 2025⟩

/-- The empty pass state. -/
def emptySt : ConvState := ⟨[], [], { total := 1 }, [], []⟩

/-- A dataset whose single row has an invalid (too short) document and
Colombian nationality. -/
def c2df : DataFrame :=
  ⟨["numero documento", "nacionalidad"],
   [[("numero documento", .str "AB1"), ("nacionalidad", .str "COLOMBIA")]]⟩

/-- An explicit column map for step-level witnesses. -/
def fixCmap : ColumnMap :=
  [("numero_documento", ("doc", .high)), ("nombres", ("nom", .high)),
   ("primer_apellido", ("ape", .high)), ("nacionalidad", ("nac", .high)),
   ("fecha_nacimiento", ("fnac", .high)), ("fecha_checkin", ("fin", .high))]

/-- A fully valid row under `fixCmap` with Colombian nationality. -/
def c2wrow : Row :=
  [("doc", .str "AB123456"), ("nom", .str "MARIA"), ("ape", .str "GARCIA"),
   ("nac", .str "COLOMBIA"), ("fnac", .str "15/03/1990"), ("fin", .str "01/06/2024")]

/-- A fully valid row under `fixCmap` with United States nationality. -/
def c6row : Row :=
  [("doc", .str "AB123456"), ("nom", .str "MARIA"), ("ape", .str "GARCIA"),
   ("nac", .str "ESTADOS UNIDOS"), ("fnac", .str "15/03/1990"), ("fin", .str "01/06/2024")]

/-- The processed record of `c6row`. -/
def c6g : GuestRecord :=
  (process_guest fixCfg fixCmap "E" 0 c6row).1.getD { row_number := 0 }

/-- A state that has already seen the dedup key of `c6g`. -/
def c6seenSt : ConvState := ⟨[], [dedupKey c6g "E"], { total := 2 }, [], []⟩

/-- A dataset whose single valid row carries a document number with an
embedded tab character. -/
def c7df : DataFrame :=
  ⟨["numero documento", "nombres", "apellido", "nacionalidad",
    "fecha nacimiento", "fecha entrada"],
   [[("numero documento", .str "AB\tCD123"), ("nombres", .str "MARIA"),
     ("apellido", .str "GARCIA"), ("nacionalidad", .str "ESTADOS UNIDOS"),
     ("fecha nacimiento", .str "15/03/1990"), ("fecha entrada", .str "01/06/2024")]]⟩

/-- The single output line `convert` produces for `c7df`. -/
def c7line : String :=
  "H1\t5001\t3\tAB\tCD123\t249\tGARCIA\t\tMARIA\tE\t01/06/2024\t249\t169\t15/03/1990"

/-- The tab-free variant of `c7df`. -/
def c7wdf : DataFrame :=
  ⟨["numero documento", "nombres", "apellido", "nacionalidad",
    "fecha nacimiento", "fecha entrada"],
   [[("numero documento", .str "AB123456"), ("nombres", .str "MARIA"),
     ("apellido", .str "GARCIA"), ("nacionalidad", .str "ESTADOS UNIDOS"),
     ("fecha nacimiento", .str "15/03/1990"), ("fecha entrada", .str "01/06/2024")]]⟩

/-- The single output line `convert` produces for `c7wdf`. -/
def c7wline : String :=
  "H1\t5001\t3\tAB123456\t249\tGARCIA\t\tMARIA\tE\t01/06/2024\t249\t169\t15/03/1990"

/-- A dataset with one column whose name matches no field and whose cells
are all absent. -/
def c9df : DataFrame := ⟨["xyz"], [[("xyz", Value.vnone)]]⟩

/-! ## Theorems -/

set_option allowUnsafeReducibility true
attribute [semireducible] Rat.mul Rat.inv Rat.add Rat.sub Rat.ofScientific
set_option maxRecDepth 200000
set_option maxHeartbeats 2000000

/-- The insertion order of `FIELD_PATTERNS` is already nondecreasing in
priority, so Python's stable `sorted` leaves it unchanged and
`sortedFields` is the table itself. -/
theorem sortedFields_priority_sorted :
    List.Pairwise (fun a b : String × FieldConfig => a.2.priority ≤ b.2.priority)
      ColumnDetector.sortedFields := by
  decide

/-- Each row-loop step leaves `total` unchanged and grows the sum of the
four exclusive buckets by exactly one. -/
theorem convertStep_buckets (cfg : ConvConfig) (cmap : ColumnMap) (mt : String)
    (st : ConvState) (ir : Nat × Row) :
    (convertStep cfg cmap mt st ir).stats.total = st.stats.total ∧
    bucketSum (convertStep cfg cmap mt st ir).stats = bucketSum st.stats + 1 := by
  unfold convertStep
  rcases hpg : process_guest cfg cmap mt ir.1 ir.2 with ⟨g?, d⟩
  cases g? with
  | none => simp [bucketSum]; omega
  | some g =>
    by_cases hv : g.is_valid = false
    · simp [hv, bucketSum]; omega
    · by_cases hk : dedupKey g mt ∈ st.seen
      · simp [hv, hk, bucketSum]; omega
      · simp [hv, hk, bucketSum]; omega

/-- Bucket bookkeeping across the whole row loop. -/
theorem convertFold_buckets (cfg : ConvConfig) (cmap : ColumnMap) (mt : String) :
    ∀ (l : List (Nat × Row)) (st : ConvState),
      (l.foldl (convertStep cfg cmap mt) st).stats.total = st.stats.total ∧
      bucketSum (l.foldl (convertStep cfg cmap mt) st).stats =
        bucketSum st.stats + l.length := by
  intro l
  induction l with
  | nil => intro st; simp
  | cons ir t ih =>
    intro st
    obtain ⟨h1, h2⟩ := convertStep_buckets cfg cmap mt st ir
    obtain ⟨h3, h4⟩ := ih (convertStep cfg cmap mt st ir)
    refine ⟨by simpa [h1] using h3, ?_⟩
    simp only [List.foldl_cons, h4, h2, List.length_cons]
    omega

/-- C1.  For every dataset, configuration and movement direction, the
statistics of `convert` satisfy
`total = valid + skipped + colombianos + duplicados`: every row lands in
exactly one of the four exclusive buckets (the inferred-fields counter is
not part of the partition). -/
theorem c1_stats_partition (cfg : ConvConfig) (df : DataFrame) (mt : String) :
    (convert cfg df mt).2.total =
      (convert cfg df mt).2.valid + (convert cfg df mt).2.skipped +
      (convert cfg df mt).2.colombianos + (convert cfg df mt).2.duplicados := by
  obtain ⟨h1, h2⟩ := convertFold_buckets cfg (ColumnDetector.detect_columns df) mt
    df.rows.enum ⟨[], [], { total := df.rows.length }, [], []⟩
  simp only [convert, convertRun]
  simp only [bucketSum] at h1 h2
  simp only [List.enum_length] at h2
  simp only [h1, h2]
  omega

/-- `dropWhile` is the identity on a run of a character the predicate
rejects. -/
theorem dropWhile_replicate_not (p : Char → Bool) (c : Char) (hc : p c = false) (n : Nat) :
    (List.replicate n c).dropWhile p = List.replicate n c := by
  cases n with
  | zero => rfl
  | succ k => simp [List.replicate_succ, List.dropWhile_cons, hc]

/-- Stripping a run of hyphens changes nothing. -/
theorem chStrip_replicate_dash (n : Nat) :
    chStrip (List.replicate n '-') = List.replicate n '-' := by
  unfold chStrip
  rw [dropWhile_replicate_not _ _ (by decide), List.reverse_replicate,
    dropWhile_replicate_not _ _ (by decide), List.reverse_replicate]

/-- Flattening replicated singletons. -/
theorem flatten_replicate_singleton (n : Nat) (c : Char) :
    (List.replicate n [c]).flatten = List.replicate n c := by
  induction n with
  | zero => rfl
  | succ k ih => simp [List.replicate_succ, ih]

/-- C10.  A document string of 5 to 20 hyphens validates as OK: stripping
hyphens leaves no characters, so the set of remaining characters has size
0, not 1, and the repeated-character rejection does not fire; no other
rule rejects it. -/
theorem c10_hyphen_document (n : Nat) (h5 : 5 ≤ n) (h20 : n ≤ 20) :
    DocumentValidator.validate_document (⟨List.replicate n '-'⟩ : String) = (true, "OK") := by
  have hdata : (⟨List.replicate n '-'⟩ : String).data = List.replicate n '-' := rfl
  have hne : (⟨List.replicate n '-'⟩ : String) ≠ "" := by
    intro h
    have h2 := congrArg String.data h
    rw [hdata] at h2
    have : n = 0 := by simpa [List.replicate_eq_nil_iff] using h2
    omega
  have hstrip : pyStrip (⟨List.replicate n '-'⟩ : String) = ⟨List.replicate n '-'⟩ := by
    simp [pyStrip, hdata, chStrip_replicate_dash]
  have hupper : pyUpper (⟨List.replicate n '-'⟩ : String) = ⟨List.replicate n '-'⟩ := by
    simp only [pyUpper, hdata, List.map_replicate]
    rw [show chUpper '-' = ['-'] from rfl, flatten_replicate_singleton]
  have hlen : (⟨List.replicate n '-'⟩ : String).length = n := by
    simp [String.length, hdata]
  unfold DocumentValidator.validate_document
  rw [if_neg hne, hstrip, hupper]
  rw [if_neg (by omega : ¬ (⟨List.replicate n '-'⟩ : String).length < 5),
    if_neg (by omega : ¬ 20 < (⟨List.replicate n '-'⟩ : String).length)]
  rw [if_neg ?hmem]
  case hmem =>
    intro hmem
    simp only [List.mem_cons, List.not_mem_nil, or_false] at hmem
    have hlens : (⟨List.replicate n '-'⟩ : String).length ≤ 4 := by
      rcases hmem with h | h | h | h | h <;> rw [h] <;> decide
    omega
  rw [if_neg ?hrep]
  case hrep =>
    have hfil : (List.replicate n '-').filter (fun c => c ≠ '-') = [] := by
      refine List.filter_eq_nil_iff.mpr ?_
      intro a ha
      have := List.eq_of_mem_replicate ha
      simp [this]
    rw [hdata, hfil]
    simp

/-- C10 witness: five hyphens validate as OK. -/
theorem c10_hyphen_document_witness :
    DocumentValidator.validate_document (⟨List.replicate 5 '-'⟩ : String) = (true, "OK") :=
  c10_hyphen_document 5 (by decide) (by decide)

/-- C3 counterexample: for column `"doc"` and candidate `"doc type"` the
detector's score is `len("doc type")/max(3,8) + 0.3 = 1.3`, while the
spec's `len(shorter)/len(longer) + 0.3` formula gives
`max(3/8 + 0.3, 1/2) = 0.675`. -/
theorem c3_counterexample :
    (ColumnDetector.fuzzy_match "doc" ["doc type"] (1 / 2)).2 = 13 / 10 ∧
    specClaimFuzzyScore "doc" "doc type" = 27 / 40 ∧
    ((13 : ℚ) / 10) ≠ 27 / 40 :=
  ⟨by decide, by decide, by norm_num⟩

/-- C3 (amended).  The fuzzy score of a column against one candidate is
1.0 on exact (case-insensitive, stripped) equality, and otherwise the
maximum of (a) `len(candidate)/max(len(column), len(candidate)) + 0.3`
when either string contains the other — the numerator is always the
candidate's length, so a column contained in a longer candidate scores
1.3 — and (b) the token-set similarity. -/
theorem c3_fuzzy_score (column candidate : String) (t : ℚ) :
    (ColumnDetector.fuzzy_match column [candidate] t).2 =
      amendedFuzzyScore column candidate := by
  unfold ColumnDetector.fuzzy_match amendedFuzzyScore
  simp only [List.any_cons, List.any_nil, Bool.or_false, List.foldl_cons, List.foldl_nil]
  by_cases he : pyStrip (pyLower column) = candidate
  · simp [he]
  · rw [if_neg (by simp [he]), if_neg he]
    dsimp only
    by_cases hc : (pyIn candidate (pyStrip (pyLower column)) ||
        pyIn (pyStrip (pyLower column)) candidate) = true
    · rw [if_pos hc, if_pos hc, Nat.cast_max]
      have hnn : (0 : ℚ) ≤ (candidate.length : ℚ) /
          (max ((pyStrip (pyLower column)).length : ℚ) (candidate.length : ℚ)) + 3 / 10 := by
        positivity
      rw [max_eq_right hnn]
    · rw [if_neg hc, if_neg hc]

/-- The format loop never reports LOW confidence on success. -/
theorem tryFormats_conf (today : Nat) (s : String) (r : String × Confidence)
    (h : DateParser.tryFormats today s = some r) : r.2 ≠ .low := by
  obtain ⟨f, hf, hsome⟩ := List.exists_of_findSome?_eq_some h
  rcases hst : strptime f s with _ | ⟨d, m, y⟩
  · rw [hst] at hsome; simp at hsome
  · rw [hst] at hsome
    by_cases hr : (1900 ≤ y && y ≤ today + 1) = true
    · simp only [hr, if_true, Option.some_inj] at hsome
      rw [← hsome]
      cases f <;> simp [fmtConf]
    · simp [hr] at hsome

/-- C5 counterexample: `"hello"` matches no format syntactically — every
`strptime` attempt fails — yet `parse` still returns `("", LOW)`, which
the claim reserves for syntactically-parsed, out-of-range dates. -/
theorem c5_counterexample :
    DateParser.parse 2025 (.str "hello") = ("", .low) ∧
    DateParser.FORMATS.all (fun f => (strptime f "hello").isNone) = true :=
  ⟨by decide, by decide⟩

/-- C5 (amended).  For any year and value, `parse` returns `("", LOW)`
exactly when the value is a non-empty, non-NaN-like string whose prepared
form is rejected by the whole format loop — whether the individual
formats failed syntactically or only on the 1900..year+1 range check; the
code does not distinguish the two cases. -/
theorem c5_parse_fallthrough (today : Nat) (v : Value) :
    DateParser.parse today v = ("", .low) ↔
      ∃ s, v = .str s ∧ pyStrip s ≠ "" ∧
        pyLower (pyStrip s) ∉ (["nan", "none", "nat", ""] : List String) ∧
        DateParser.tryFormats today (DateParser.prep s) = Option.none := by
  constructor
  · intro h
    cases v with
    | vnone => simp [DateParser.parse] at h
    | nan => simp [DateParser.parse, is_nan_or_empty] at h
    | ts d m y => simp [DateParser.parse, is_nan_or_empty] at h
    | str s =>
      by_cases h0 : pyStrip s = ""
      · simp [DateParser.parse, is_nan_or_empty, h0] at h
      · by_cases h1 : pyLower (pyStrip s) ∈ (["nan", "none", "nat", ""] : List String)
        · simp [DateParser.parse, is_nan_or_empty, h0, h1] at h
        · rcases h2 : DateParser.tryFormats today (DateParser.prep s) with _ | r
          · exact ⟨s, rfl, h0, h1, h2⟩
          · exfalso
            have hr := tryFormats_conf today (DateParser.prep s) r h2
            simp [DateParser.parse, is_nan_or_empty, h0, h1, h2] at h
            rw [h] at hr
            exact hr rfl
  · rintro ⟨s, rfl, h1, h2, h3⟩
    simp [DateParser.parse, is_nan_or_empty, h1, h2, h3]

/-- C2 counterexample: a one-row dataset whose nationality cell resolves
to the home code "169" but whose document is invalid — the row is counted
in `skipped`, not `colombianos`, because document validation aborts the
record before nationality is examined. -/
theorem c2_counterexample :
    (CountryCodes.get_code (.str "COLOMBIA")).1 = "169" ∧
    convert fixCfg c2df "E" =
      ([], { total := 1, valid := 0, skipped := 1, colombianos := 0,
             duplicados := 0, inferidos := 0 }) :=
  ⟨by decide, by decide⟩

/-- C2 (amended).  For a row whose document passes validation and whose
nationality resolves to the home code "169" (directly or through the
origin-inference fallback), `_process_guest` returns the domestic marker
and the conversion step increments `colombianos`, leaves `skipped`
unchanged and emits nothing. -/
theorem c2_domestic_exclusion (cfg : ConvConfig) (cmap : ColumnMap) (mt : String)
    (st : ConvState) (idx : Nat) (row : Row)
    (hdoc : (DocumentValidator.validate_document (extractDocStr cmap row)).1 = true)
    (hnac : (resolveNationality cmap row).1 = "169") :
    (process_guest cfg cmap mt idx row).1 = Option.none ∧
    (convertStep cfg cmap mt st (idx, row)).stats.colombianos = st.stats.colombianos + 1 ∧
    (convertStep cfg cmap mt st (idx, row)).stats.skipped = st.stats.skipped ∧
    (convertStep cfg cmap mt st (idx, row)).lines = st.lines := by
  have hpg : (process_guest cfg cmap mt idx row).1 = Option.none := by
    unfold process_guest
    simp only [hdoc, hnac, Bool.not_true, Bool.false_eq_true, if_false, if_true]
  rcases hpg2 : process_guest cfg cmap mt idx row with ⟨g?, d⟩
  rw [hpg2] at hpg
  dsimp only at hpg
  subst hpg
  refine ⟨by rfl, ?_, ?_, ?_⟩ <;>
    · unfold convertStep
      rw [show process_guest cfg cmap mt (idx, row).1 (idx, row).2 =
        (Option.none, d) from hpg2]

/-- C2 witness: a fully valid row carrying nationality `"COLOMBIA"` is
dropped as domestic — `colombianos` moves by one, `skipped` and the
output do not. -/
theorem c2_domestic_exclusion_witness :
    (process_guest fixCfg fixCmap "E" 0 c2wrow).1 = Option.none ∧
    (convertStep fixCfg fixCmap "E" emptySt (0, c2wrow)).stats.colombianos =
      emptySt.stats.colombianos + 1 ∧
    (convertStep fixCfg fixCmap "E" emptySt (0, c2wrow)).stats.skipped =
      emptySt.stats.skipped ∧
    (convertStep fixCfg fixCmap "E" emptySt (0, c2wrow)).lines = emptySt.lines :=
  c2_domestic_exclusion fixCfg fixCmap "E" emptySt 0 c2wrow (by decide) (by decide)

/-- Fold preservation of a predicate. -/
theorem foldl_preserve {α β : Type} (f : α → β → α) (P : α → Prop)
    (hstep : ∀ st x, P st → P (f st x)) :
    ∀ (l : List β) (st : α), P st → P (l.foldl f st) := by
  intro l
  induction l with
  | nil => intro st h; exact h
  | cons x t ih => intro st h; exact ih _ (hstep st x h)

/-- Each row-loop step either leaves the output unchanged or appends
exactly one assembled line. -/
theorem convertStep_lines (cfg : ConvConfig) (cmap : ColumnMap) (mt : String)
    (st : ConvState) (ir : Nat × Row) :
    (convertStep cfg cmap mt st ir).lines = st.lines ∨
    ∃ g, (convertStep cfg cmap mt st ir).lines = st.lines ++ [buildLine cfg mt g] := by
  unfold convertStep
  rcases process_guest cfg cmap mt ir.1 ir.2 with ⟨_ | g, d⟩
  · exact Or.inl rfl
  · dsimp only
    split
    · exact Or.inl rfl
    · split
      · exact Or.inl rfl
      · exact Or.inr ⟨g, rfl⟩

/-- A valid record whose dedup key is fresh is emitted, its key recorded,
and `duplicados` untouched. -/
theorem convertStep_freshKey (cfg : ConvConfig) (cmap : ColumnMap) (mt : String)
    (st : ConvState) (idx : Nat) (row : Row) (g : GuestRecord) (d : Nat)
    (hpg : process_guest cfg cmap mt idx row = (some g, d))
    (hv : g.is_valid = true) (hk : dedupKey g mt ∉ st.seen) :
    (convertStep cfg cmap mt st (idx, row)).lines = st.lines ++ [buildLine cfg mt g] ∧
    dedupKey g mt ∈ (convertStep cfg cmap mt st (idx, row)).seen ∧
    (convertStep cfg cmap mt st (idx, row)).stats.duplicados = st.stats.duplicados := by
  unfold convertStep
  rw [show process_guest cfg cmap mt (idx, row).1 (idx, row).2 = (some g, d) from hpg]
  simp [hv, hk]

/-- A valid record whose dedup key was already seen is dropped from the
output and counted in `duplicados` exactly once. -/
theorem convertStep_dupKey (cfg : ConvConfig) (cmap : ColumnMap) (mt : String)
    (st : ConvState) (idx : Nat) (row : Row) (g : GuestRecord) (d : Nat)
    (hpg : process_guest cfg cmap mt idx row = (some g, d))
    (hv : g.is_valid = true) (hk : dedupKey g mt ∈ st.seen) :
    (convertStep cfg cmap mt st (idx, row)).lines = st.lines ∧
    (convertStep cfg cmap mt st (idx, row)).stats.duplicados = st.stats.duplicados + 1 := by
  unfold convertStep
  rw [show process_guest cfg cmap mt (idx, row).1 (idx, row).2 = (some g, d) from hpg]
  simp [hv, hk]

/-- A step never removes keys from the seen set. -/
theorem convertStep_seen_mono (cfg : ConvConfig) (cmap : ColumnMap) (mt : String)
    (st : ConvState) (ir : Nat × Row) (k : String) (hk : k ∈ st.seen) :
    k ∈ (convertStep cfg cmap mt st ir).seen := by
  unfold convertStep
  rcases process_guest cfg cmap mt ir.1 ir.2 with ⟨_ | g2, d2⟩
  · exact hk
  · dsimp only
    split
    · exact hk
    · split
      · exact hk
      · exact List.mem_append_left _ hk

/-- A step never removes lines from the output. -/
theorem convertStep_lines_mono (cfg : ConvConfig) (cmap : ColumnMap) (mt : String)
    (st : ConvState) (ir : Nat × Row) (line : String) (hl : line ∈ st.lines) :
    line ∈ (convertStep cfg cmap mt st ir).lines := by
  rcases convertStep_lines cfg cmap mt st ir with he | ⟨g, he⟩
  · rw [he]; exact hl
  · rw [he]; exact List.mem_append_left _ hl

/-- C6.  Two otherwise-emittable rows with the same (document, movement
date, direction) dedup key, in input order: after the first row is
processed at a state that has not yet seen the key, its line is in the
output; after any list of intervening rows, processing the second row
adds no line and increments `duplicados` by exactly 1 — so only the
first of the two rows ever appears in the output. -/
theorem c6_dedup (cfg : ConvConfig) (cmap : ColumnMap) (mt : String)
    (idx1 idx2 : Nat) (row1 row2 : Row) (g1 g2 : GuestRecord) (d1 d2 : Nat)
    (hpg1 : process_guest cfg cmap mt idx1 row1 = (some g1, d1))
    (hv1 : g1.is_valid = true)
    (hpg2 : process_guest cfg cmap mt idx2 row2 = (some g2, d2))
    (hv2 : g2.is_valid = true)
    (hkey : dedupKey g2 mt = dedupKey g1 mt) :
    ∀ (st : ConvState) (mid : List (Nat × Row)), dedupKey g1 mt ∉ st.seen →
      buildLine cfg mt g1 ∈
        (mid.foldl (convertStep cfg cmap mt) (convertStep cfg cmap mt st (idx1, row1))).lines ∧
      (convertStep cfg cmap mt
        (mid.foldl (convertStep cfg cmap mt) (convertStep cfg cmap mt st (idx1, row1)))
        (idx2, row2)).lines =
        (mid.foldl (convertStep cfg cmap mt) (convertStep cfg cmap mt st (idx1, row1))).lines ∧
      (convertStep cfg cmap mt
        (mid.foldl (convertStep cfg cmap mt) (convertStep cfg cmap mt st (idx1, row1)))
        (idx2, row2)).stats.duplicados =
        ((mid.foldl (convertStep cfg cmap mt)
          (convertStep cfg cmap mt st (idx1, row1))).stats.duplicados + 1) := by
  intro st mid hfresh
  obtain ⟨hl1, hs1, _⟩ := convertStep_freshKey cfg cmap mt st idx1 row1 g1 d1 hpg1 hv1 hfresh
  have hline : buildLine cfg mt g1 ∈
      (mid.foldl (convertStep cfg cmap mt) (convertStep cfg cmap mt st (idx1, row1))).lines := by
    refine foldl_preserve _ (fun s => buildLine cfg mt g1 ∈ s.lines)
      (fun s ir h => convertStep_lines_mono cfg cmap mt s ir _ h) mid _ ?_
    show buildLine cfg mt g1 ∈ (convertStep cfg cmap mt st (idx1, row1)).lines
    rw [hl1]
    simp
  have hseen : dedupKey g1 mt ∈
      (mid.foldl (convertStep cfg cmap mt) (convertStep cfg cmap mt st (idx1, row1))).seen :=
    foldl_preserve _ (fun s => dedupKey g1 mt ∈ s.seen)
      (fun s ir h => convertStep_seen_mono cfg cmap mt s ir _ h) mid _ hs1
  obtain ⟨hl2, hd2⟩ := convertStep_dupKey cfg cmap mt _ idx2 row2 g2 d2 hpg2 hv2
    (by rw [hkey]; exact hseen)
  exact ⟨hline, hl2, hd2⟩

/-- C6 witness: the same valid row presented twice from the empty state —
the first occurrence's line is emitted, the second adds nothing and bumps
`duplicados` to one. -/
theorem c6_dedup_witness :
    buildLine fixCfg "E" c6g ∈
      (List.foldl (convertStep fixCfg fixCmap "E")
        (convertStep fixCfg fixCmap "E" emptySt (0, c6row)) []).lines ∧
    (convertStep fixCfg fixCmap "E"
      (List.foldl (convertStep fixCfg fixCmap "E")
        (convertStep fixCfg fixCmap "E" emptySt (0, c6row)) []) (0, c6row)).lines =
      (List.foldl (convertStep fixCfg fixCmap "E")
        (convertStep fixCfg fixCmap "E" emptySt (0, c6row)) []).lines ∧
    (convertStep fixCfg fixCmap "E"
      (List.foldl (convertStep fixCfg fixCmap "E")
        (convertStep fixCfg fixCmap "E" emptySt (0, c6row)) []) (0, c6row)).stats.duplicados =
      (List.foldl (convertStep fixCfg fixCmap "E")
        (convertStep fixCfg fixCmap "E" emptySt (0, c6row)) []).stats.duplicados + 1 :=
  c6_dedup fixCfg fixCmap "E" 0 0 c6row c6row c6g c6g 0 0
    (by decide) (by decide) (by decide) (by decide) rfl emptySt [] (by decide)

/-- C4 counterexample: `"PASAPORT"` is not an exact document-type key but
is contained in the key `"PASAPORTE"`; the document-type resolver returns
its code at HIGH, not the MEDIUM the claim requires for containment
matches. -/
theorem c4_counterexample :
    DocumentTypes.get_code (.str "PASAPORT") = ("3", .high) ∧
    assocLookup DocumentTypes.CODES (DocumentTypes.normalize "PASAPORT") = Option.none ∧
    pyIn (DocumentTypes.normalize "PASAPORT") "PASAPORTE" = true ∧
    ("PASAPORTE", "3") ∈ DocumentTypes.CODES ∧
    Confidence.high ≠ Confidence.medium :=
  ⟨by decide, by decide, by decide, by decide, by decide⟩

/-- C4 (amended).  Only the country resolver has a separate containment
step at MEDIUM: a non-empty input whose normalized form is not an exact
key but stands in substring relation (either direction) with some key
resolves to the first such key's code at MEDIUM.  The document-type
resolver folds containment (either direction) into its first step and
returns HIGH.  The city matcher tests only "key contained in the text",
only when the normalized text has length ≥ 5, and any positive match
yields the fixed national code at HIGH. -/
theorem c4_containment :
    (∀ (v : Value) (kc : String × String),
      pyFalsy v = false → is_nan_or_empty v = false →
      assocLookup CountryCodes.CODES (normalizeRef v.pyStr) = Option.none →
      CountryCodes.CODES.find? (fun e =>
        pyIn (normalizeRef v.pyStr) e.1 || pyIn e.1 (normalizeRef v.pyStr)) = some kc →
      CountryCodes.get_code v = (kc.2, .medium)) ∧
    (∀ (v : Value) (kc : String × String),
      pyFalsy v = false → is_nan_or_empty v = false →
      DocumentTypes.CODES.find? (fun e =>
        pyIn e.1 (DocumentTypes.normalize v.pyStr) ||
        pyIn (DocumentTypes.normalize v.pyStr) e.1) = some kc →
      DocumentTypes.get_code v = (kc.2, .high)) ∧
    (∀ (v : Value) (kc : String × String),
      pyFalsy v = false → is_nan_or_empty v = false →
      assocLookup ColombianCities.CITIES (normalizeRef v.pyStr) = Option.none →
      5 ≤ (normalizeRef v.pyStr).length →
      ColombianCities.CITIES.find? (fun e => pyIn e.1 (normalizeRef v.pyStr)) = some kc →
      ColombianCities.get_colombia_code_if_city v = ("169", .high)) := by
  refine ⟨?_, ?_, ?_⟩
  · intro v kc hf hn hex hfind
    unfold CountryCodes.get_code
    rw [if_neg (by simp [hf, hn])]
    simp only [hex, hfind]
  · intro v kc hf hn hfind
    unfold DocumentTypes.get_code
    rw [if_neg (by simp [hf, hn])]
    simp only [hfind]
  · intro v kc hf hn hex hlen hfind
    unfold ColombianCities.get_colombia_code_if_city
    rw [if_pos ?hcity]
    case hcity =>
      unfold ColombianCities.is_colombian_city
      rw [if_neg (by simp [hf, hn])]
      simp only [hex, hfind, if_pos hlen]

/-- C4 witness: the three resolvers applied as the amended claim
describes — `"COLOMBI"` resolves at MEDIUM, `"PASAPORT"` at HIGH, and
`"MEDELLIN CITY"` yields the national code at HIGH. -/
theorem c4_containment_witness :
    CountryCodes.get_code (.str "COLOMBI") = ("169", .medium) ∧
    DocumentTypes.get_code (.str "PASAPORT") = ("3", .high) ∧
    ColombianCities.get_colombia_code_if_city (.str "MEDELLIN CITY") = ("169", .high) :=
  ⟨c4_containment.1 (.str "COLOMBI") ("COLOMBIA", "169")
      (by decide) (by decide) (by decide) (by decide),
   c4_containment.2.1 (.str "PASAPORT") ("PASAPORTE", "3")
      (by decide) (by decide) (by decide),
   c4_containment.2.2 (.str "MEDELLIN CITY") ("MEDELLIN", "5001")
      (by decide) (by decide) (by decide) (by decide) (by decide)⟩

/-- `pyJoin` agrees with list intercalation on the character data. -/
theorem pyJoin_data (sep : String) (l : List String) :
    (pyJoin sep l).data = List.intercalate sep.data (l.map String.data) := by
  induction l with
  | nil => rfl
  | cons x t ih =>
    cases t with
    | nil => simp [pyJoin, List.intercalate]
    | cons y t2 =>
      show (x ++ sep ++ pyJoin sep (y :: t2)).data = _
      rw [String.data_append, String.data_append, ih]
      simp [List.intercalate, List.append_assoc]

/-- Splitting on the join character recovers the parts, provided no part
contains it. -/
theorem splitChar_pyJoin (c : Char) (sep : String) (hsep : sep.data = [c])
    (parts : List String) (hne : parts ≠ []) (hc : ∀ p ∈ parts, c ∉ p.data) :
    splitChar c (pyJoin sep parts) = parts := by
  unfold splitChar
  rw [pyJoin_data, hsep]
  rw [List.splitOn_intercalate (parts.map String.data) c ?h1 ?h2]
  case h1 =>
    intro l hl
    rcases List.mem_map.mp hl with ⟨p, hp, rfl⟩
    exact hc p hp
  case h2 =>
    intro h
    exact hne (List.map_eq_nil_iff.mp h)
  rw [List.map_map]
  exact List.map_id'' (fun s => rfl) parts

/-- Every line of the folded pass comes from the initial state or from
`buildLine` on some guest record. -/
theorem convertFold_lines (cfg : ConvConfig) (cmap : ColumnMap) (mt : String) :
    ∀ (l : List (Nat × Row)) (st : ConvState) (line : String),
      line ∈ (l.foldl (convertStep cfg cmap mt) st).lines →
      line ∈ st.lines ∨ ∃ g, line = buildLine cfg mt g := by
  intro l
  induction l with
  | nil => intro st line h; exact Or.inl h
  | cons ir t ih =>
    intro st line h
    rcases ih (convertStep cfg cmap mt st ir) line h with hmem | hg
    · rcases convertStep_lines cfg cmap mt st ir with he | ⟨g, he⟩
      · rw [he] at hmem
        exact Or.inl hmem
      · rw [he] at hmem
        rcases List.mem_append.mp hmem with hmem1 | hmem2
        · exact Or.inl hmem1
        · exact Or.inr ⟨g, by simpa using hmem2⟩
    · exact Or.inr hg

/-- C7 counterexample: a valid row whose document value contains an
embedded tab produces an accepted output line that splits into 14 fields,
not 13. -/
theorem c7_counterexample :
    (convert fixCfg c7df "E").1 = [c7line] ∧
    (splitChar (Char.ofNat 9) c7line).length = 14 :=
  ⟨by decide, by decide⟩

/-- C7 (amended).  Every accepted output line is the tab-join of exactly
the 13 fields in the fixed order (establishment, city, document type,
document, nationality, first surname, second surname, given names,
movement code, movement date, origin, destination, birth date); when none
of those field values contains a tab — which a document value, the
establishment code, the city code or the movement code can — splitting
the line on the tab delimiter yields exactly those 13 fields. -/
theorem c7_line_format (cfg : ConvConfig) (df : DataFrame) (mt : String) (line : String)
    (hline : line ∈ (convert cfg df mt).1) :
    ∃ g : GuestRecord, line = buildLine cfg mt g ∧
      (lineFields cfg mt g).length = 13 ∧
      ((∀ f ∈ lineFields cfg mt g, (Char.ofNat 9) ∉ f.data) →
        splitChar (Char.ofNat 9) line = lineFields cfg mt g ∧
        (splitChar (Char.ofNat 9) line).length = 13) := by
  have hmem := convertFold_lines cfg (ColumnDetector.detect_columns df) mt
    df.rows.enum ⟨[], [], { total := df.rows.length }, [], []⟩ line hline
  rcases hmem with hmem | ⟨g, hg⟩
  · simp at hmem
  · refine ⟨g, hg, rfl, ?_⟩
    intro htab
    have hsplit : splitChar (Char.ofNat 9) (buildLine cfg mt g) = lineFields cfg mt g := by
      apply splitChar_pyJoin _ _ (by decide) _ (by intro h; simp [lineFields] at h) htab
    rw [hg]
    exact ⟨hsplit, by rw [hsplit]; simp [lineFields]⟩

/-- C7 witness: the line produced for a tab-free valid row decomposes
into the 13 fixed fields. -/
theorem c7_line_format_witness :
    ∃ g : GuestRecord, c7wline = buildLine fixCfg "E" g ∧
      (lineFields fixCfg "E" g).length = 13 ∧
      ((∀ f ∈ lineFields fixCfg "E" g, (Char.ofNat 9) ∉ f.data) →
        splitChar (Char.ofNat 9) c7wline = lineFields fixCfg "E" g ∧
        (splitChar (Char.ofNat 9) c7wline).length = 13) :=
  c7_line_format fixCfg c7wdf "E" c7wline (by decide)

/-- Claiming a fresh column preserves the detector invariant. -/
theorem claim_preserves (st : DetectState) (f : String) (conf : Confidence)
    (col : String) (hcol : col ∉ st.used) (h : DInv st) :
    DInv ⟨st.detected ++ [(f, (col, conf))], col :: st.used⟩ := by
  obtain ⟨h1, h2⟩ := h
  constructor
  · intro e he
    rcases List.mem_append.mp he with he1 | he2
    · exact List.mem_cons_of_mem _ (h1 e he1)
    · simp only [List.mem_singleton] at he2
      subst he2
      exact List.mem_cons_self _ _
  · unfold detectedCols at h2 ⊢
    simp only [List.map_append, List.map_cons, List.map_nil]
    rw [List.nodup_append]
    refine ⟨h2, by simp, ?_⟩
    intro a ha hb
    simp only [List.mem_singleton] at hb
    subst hb
    rcases List.mem_map.mp ha with ⟨e, he, hcol2⟩
    exact hcol (hcol2 ▸ h1 e he)

/-- Pass 1 preserves the detector invariant. -/
theorem pass1Step_inv (cols : List String) (st : DetectState) (fc : String × FieldConfig)
    (h : DInv st) : DInv (ColumnDetector.pass1Step cols st fc) := by
  unfold ColumnDetector.pass1Step
  rcases hf : cols.find? _ with _ | col
  · exact h
  · have hp := List.find?_some hf
    simp only [Bool.and_eq_true, Bool.not_eq_eq_eq_not, Bool.not_true] at hp
    exact claim_preserves st fc.1 .high col (by simpa using hp.1.1) h

/-- Pass 2 preserves the detector invariant. -/
theorem pass2Step_inv (cols : List String) (st : DetectState) (fc : String × FieldConfig)
    (h : DInv st) : DInv (ColumnDetector.pass2Step cols st fc) := by
  unfold ColumnDetector.pass2Step
  split
  · exact h
  · rcases hf : cols.find? _ with _ | col
    · exact h
    · have hp := List.find?_some hf
      simp only [Bool.and_eq_true, Bool.not_eq_eq_eq_not, Bool.not_true] at hp
      exact claim_preserves st fc.1 .medium col (by simpa using hp.1.1) h

/-- Pass 3 preserves the detector invariant. -/
theorem pass3Step_inv (df : DataFrame) (st : DetectState) (f : String)
    (h : DInv st) : DInv (ColumnDetector.pass3Step df st f) := by
  unfold ColumnDetector.pass3Step
  split
  · exact h
  · dsimp only
    split
    · exact h
    · rcases hf : df.columns.find? _ with _ | col
      · exact h
      · have hp := List.find?_some hf
        simp only [Bool.and_eq_true, Bool.not_eq_eq_eq_not, Bool.not_true] at hp
        exact claim_preserves st f .low col (by simpa using hp.1.1) h

/-- The detector invariant holds of the final detection state. -/
theorem detect_final_inv (df : DataFrame) :
    DInv (ColumnDetector.criticalFields.foldl (ColumnDetector.pass3Step df)
      (ColumnDetector.pass12 df)) := by
  have h0 : DInv ⟨[], []⟩ := ⟨by simp, by simp [detectedCols]⟩
  unfold ColumnDetector.pass12
  exact foldl_preserve _ _ (pass3Step_inv df) _ _
    (foldl_preserve _ _ (pass2Step_inv df.columns) _ _
      (foldl_preserve _ _ (pass1Step_inv df.columns) _ _ h0))

/-- In an assoc list whose assigned columns are pairwise distinct, one
column determines the field that claimed it. -/
theorem assoc_col_inj (l : List (String × (String × Confidence)))
    (hnd : (l.map (fun e => e.2.1)).Nodup) (f1 f2 c : String) (k1 k2 : Confidence)
    (h1 : (f1, (c, k1)) ∈ l) (h2 : (f2, (c, k2)) ∈ l) : f1 = f2 := by
  induction l with
  | nil => cases h1
  | cons e t ih =>
    simp only [List.map_cons, List.nodup_cons] at hnd
    rcases List.mem_cons.mp h1 with he1 | ht1 <;> rcases List.mem_cons.mp h2 with he2 | ht2
    · have he := he1.trans he2.symm
      exact (Prod.ext_iff.mp he).1
    · exfalso
      apply hnd.1
      rw [← he1]
      exact List.mem_map.mpr ⟨(f2, (c, k2)), ht2, rfl⟩
    · exfalso
      apply hnd.1
      rw [← he2]
      exact List.mem_map.mpr ⟨(f1, (c, k1)), ht1, rfl⟩
    · exact ih hnd.2 ht1 ht2

/-- C8.  The `ColumnMap` produced by `detect_columns` is injective: no
source column is assigned to two different canonical fields, across all
three passes (each claim requires the column to be outside the used-column
set and adds it). -/
theorem c8_injective (df : DataFrame) (f1 f2 c : String) (k1 k2 : Confidence)
    (h1 : (f1, (c, k1)) ∈ ColumnDetector.detect_columns df)
    (h2 : (f2, (c, k2)) ∈ ColumnDetector.detect_columns df) : f1 = f2 :=
  assoc_col_inj _ (detect_final_inv df).2 f1 f2 c k1 k2 h1 h2

/-- C8 witness: both detection facts for the one assigned column of the
`c9df` dataset name the same field. -/
theorem c8_injective_witness : "numero_documento" = "numero_documento" :=
  c8_injective c9df "numero_documento" "numero_documento" "xyz" .low .low
    (by decide) (by decide)

/-- Pass 3 only ever appends to the detected map. -/
theorem pass3Step_mono (df : DataFrame) (st : DetectState) (f : String)
    (e : String × (String × Confidence)) (he : e ∈ st.detected) :
    e ∈ (ColumnDetector.pass3Step df st f).detected := by
  unfold ColumnDetector.pass3Step
  split
  · exact he
  · dsimp only
    split
    · exact he
    · rcases df.columns.find? _ with _ | col
      · exact he
      · exact List.mem_append_left _ he

/-- C9.  At any critical field's turn in pass 3 (so after the name passes
and whatever the earlier critical fields claimed): if the field is still
unclaimed, its configuration has content patterns, and `c` is the first
unclaimed, non-excluded column passing its content test, the field claims
`c` at LOW — and a column whose present cells are all absent has an empty
sample and passes the ≥ 50 % content test vacuously (0 matches ≥ 0·0.5),
whatever the patterns. -/
theorem c9_content_sniff (df : DataFrame) (f c : String) (pre post : List String)
    (hsplit : ColumnDetector.criticalFields = pre ++ f :: post)
    (h1 : (pre.foldl (ColumnDetector.pass3Step df) (ColumnDetector.pass12 df)).has f = false)
    (hpat : (ColumnDetector.configOf f).contentPatterns ≠ [])
    (h2 : df.columns.find? (fun col =>
        !((pre.foldl (ColumnDetector.pass3Step df)
            (ColumnDetector.pass12 df)).used.contains col) &&
        !(ColumnDetector.should_exclude col (ColumnDetector.configOf f)) &&
        ColumnDetector.contentTest df (ColumnDetector.configOf f) col) = some c)
    (h3 : sampleOf df c = []) :
    (f, (c, Confidence.low)) ∈ ColumnDetector.detect_columns df ∧
    ColumnDetector.contentTest df (ColumnDetector.configOf f) c = true := by
  have hct : ColumnDetector.contentTest df (ColumnDetector.configOf f) c = true := by
    simp [ColumnDetector.contentTest, h3]
  refine ⟨?_, hct⟩
  show (f, (c, Confidence.low)) ∈
    (ColumnDetector.criticalFields.foldl (ColumnDetector.pass3Step df)
      (ColumnDetector.pass12 df)).detected
  rw [hsplit, List.foldl_append, List.foldl_cons]
  have hstep : ∀ st : DetectState, st.has f = false →
      df.columns.find? (fun col =>
        !(st.used.contains col) &&
        !(ColumnDetector.should_exclude col (ColumnDetector.configOf f)) &&
        ColumnDetector.contentTest df (ColumnDetector.configOf f) col) = some c →
      ColumnDetector.pass3Step df st f =
        ⟨st.detected ++ [(f, (c, .low))], c :: st.used⟩ := by
    intro st h1w h2w
    unfold ColumnDetector.pass3Step
    rw [if_neg (by simp [h1w])]
    dsimp only
    rw [if_neg hpat]
    rw [h2w]
  rw [hstep _ h1 h2]
  refine foldl_preserve _ (fun s => (f, (c, Confidence.low)) ∈ s.detected)
    (fun s x h => pass3Step_mono df s x _ h) post _ ?_
  exact List.mem_append_right _ (by simp)

/-- C9 witness: the all-absent column `"xyz"` of `c9df` is claimed by
`numero_documento` — the first critical field with content patterns — at
LOW through the vacuous content test. -/
theorem c9_content_sniff_witness :
    ("numero_documento", ("xyz", Confidence.low)) ∈ ColumnDetector.detect_columns c9df ∧
    ColumnDetector.contentTest c9df
      (ColumnDetector.configOf "numero_documento") "xyz" = true :=
  c9_content_sniff c9df "numero_documento" "xyz" [] ["fecha_nacimiento", "nacionalidad"]
    (by decide) (by decide) (by decide) (by decide) (by decide)
